import Mathlib

/-!
BlueZ Android HAL IPC transport (android/hal-ipc.c, android/hal-bluetooth.c)

A shallow embedding of the notification dispatcher `handle_msg`, the handler
registry (`hal_ipc_register`, `hal_ipc_unregister`), the synchronous command
exchange `hal_ipc_cmd`, the session life cycle (`hal_ipc_init`,
`notification_handler`, `hal_ipc_cleanup`), the event decoders of the
Bluetooth service (`ev_handlers`, `adapter_props_to_hal`, `device_props_to_hal`)
and its interface operations (`init`, `cleanup`, the command wrappers).

Conventions of the embedding:
* a byte is a `Fin 256`; wider machine integers are `Nat`/`Int` with the
  truncation written out where the C code truncates;
* `exit(EXIT_FAILURE)` is an explicit `Status.exited` carrying the diagnostic
  that the code prints just before;
* callbacks are not executed: an invocation is recorded in the run's `calls`.
-/

namespace HalIpc

/-! ## Constants and wire types of `hal-msg.h` / `hal-ipc.h` -/

abbrev Byte := Fin 256

/-- Constants the transport takes from headers that are not part of the
sources at hand (`hal-msg.h`, `hal.h`); every theorem is stated for arbitrary
values of them. -/
structure HalConsts where
  HAL_SERVICE_ID_MAX : Nat
  HAL_MINIMUM_EVENT : Nat
  HAL_OP_STATUS : Nat
  HAL_STATUS_SUCCESS : Nat
  BT_STATUS_SUCCESS : Int
deriving Repr, DecidableEq

/-- A concrete choice of the constants, used for concrete runs: events start
at opcode `0x81`, the status opcode and the success code are both `0`. -/
def bluez : HalConsts where
  HAL_SERVICE_ID_MAX := 9
  HAL_MINIMUM_EVENT := 0x81
  HAL_OP_STATUS := 0x00
  HAL_STATUS_SUCCESS := 0x00
  BT_STATUS_SUCCESS := 0

/-- Modelled from the spec: `sizeof(struct hal_hdr)` of the missing
`hal-msg.h`. The frame layout is
`[service_id: 1 byte][opcode: 1 byte][payload_length: 2 bytes little-endian]`
followed by the payload. -/
def HDR_SIZE : Nat := 4

/-- Modelled from the spec: `sizeof(struct hal_status)` of the missing
`hal-msg.h`; the status response payload is `[code: 1 byte]`. -/
def STATUS_SIZE : Nat := 1

/-- Byte `i` of a buffer; memory that the buffer does not cover reads as 0
(every buffer the transport receives into is cleared with `memset` first). -/
def byteAt (buf : List Byte) (i : Nat) : Nat := (buf.getD i 0).val

/-- Field `msg->service_id` of a `struct hal_hdr` overlaid on `buf`. -/
def hdr_service_id (buf : List Byte) : Nat := byteAt buf 0

/-- Field `msg->opcode` of a `struct hal_hdr` overlaid on `buf`. -/
def hdr_opcode (buf : List Byte) : Nat := byteAt buf 1

/-- Field `msg->len` (16 bits, little-endian) of a `struct hal_hdr` overlaid
on `buf`. -/
def hdr_len (buf : List Byte) : Nat := byteAt buf 2 + 256 * byteAt buf 3

/-- Flexible member `msg->payload` together with the length the code passes
along with it. -/
def hdr_payload (buf : List Byte) (n : Nat) : List Byte := (buf.drop HDR_SIZE).take n

/-- Entry of a handler table, `struct hal_ipc_handler` of `hal-ipc.h`:
`handler` stands for the function pointer. -/
structure hal_ipc_handler (H : Type) where
  handler : H
  var_len : Bool
  data_len : Nat
deriving Repr, DecidableEq

/-- Slot of the service table, `struct service_handler`: `handler` is the
pointer to the registered array (`none` for `NULL`), `size` the registered
8-bit count. -/
structure service_handler (H : Type) where
  handler : Option (List (hal_ipc_handler H))
  size : Nat
deriving Repr, DecidableEq

/-- The static array `services[HAL_SERVICE_ID_MAX + 1]`, read by index. The
dispatcher reads it only after checking the index against
`HAL_SERVICE_ID_MAX`. -/
abbrev Services (H : Type) := Nat → service_handler H

/-- Zero-initialised static storage: every slot is `{NULL, 0}`. -/
def services_init (H : Type) : Services H := fun _ => { handler := none, size := 0 }

/-- Embedding of `hal_ipc_register`; `size` is stored in a `uint8_t`. -/
def hal_ipc_register {H : Type} (services : Services H) (service : Nat)
    (handlers : List (hal_ipc_handler H)) (size : Nat) : Services H :=
  fun s => if s = service then { handler := some handlers, size := size % 256 } else services s

/-- Embedding of `hal_ipc_unregister`. -/
def hal_ipc_unregister {H : Type} (services : Services H) (service : Nat) : Services H :=
  fun s => if s = service then { handler := none, size := 0 } else services s

/-! ## Runs -/

/-- The diagnostics after which the transport calls `exit(EXIT_FAILURE)`. -/
inductive Fault
  | message_too_small
  | message_malformed
  | unknown_service
  | unregistered_service
  | invalid_opcode
  | message_size_invalid
  | invalid_cmd_socket
  | sending_failed
  | command_socket_closed
  | receiving_failed
  | response_too_small
  | invalid_service_id
  | response_malformed
  | invalid_opcode_received
  | invalid_status_length
  | invalid_success_status
  | receiving_notifications_failed
  | notification_socket_closed
  | invalid_adapter_properties
  | adapter_properties_bytes_left
  | invalid_device_properties
  | device_properties_bytes_left
  | invalid_dut_mode_receive
  | invalid_hal_property
deriving Repr, DecidableEq

/-- How a run of a transport function ends: it returns, it terminates the
process through `exit`, or it reads outside an array (undefined in C). -/
inductive Status
  | returned
  | exited (f : Fault)
  | undefined
deriving Repr, DecidableEq

/-- One call through a handler-table function pointer:
`handler->handler(payload, len)`. -/
structure Invocation (H : Type) where
  handler : H
  payload : List Byte
  len : Nat
deriving Repr, DecidableEq

/-- Result of running the dispatcher on one buffer: the callbacks invoked, in
order, and how the run ended. -/
structure Run (H : Type) where
  calls : List (Invocation H)
  status : Status
deriving Repr, DecidableEq

/-- The run that ends in `exit(EXIT_FAILURE)` before any callback. -/
def Run.abort {H : Type} (f : Fault) : Run H := { calls := [], status := .exited f }

/-- A run is fatal when it ended through `exit` and invoked no callback. -/
def Run.fatal {H : Type} (r : Run H) : Prop := r.calls = [] ∧ ∃ f, r.status = .exited f

/-- The 8-bit table offset `opcode = msg->opcode - HAL_MINIMUM_EVENT`: the
difference is computed in `int` and truncated to `uint8_t`. -/
def adjusted_opcode (K : HalConsts) (buf : List Byte) : Nat :=
  (((hdr_opcode buf : Int) - (K.HAL_MINIMUM_EVENT : Int)) % 256).toNat

/-- Embedding of `handle_msg(buf, len)`. -/
def handle_msg {H : Type} (K : HalConsts) (services : Services H) (buf : List Byte)
    (len : Int) : Run H :=
  if len < (HDR_SIZE : Int) then Run.abort .message_too_small
  else if len ≠ ((HDR_SIZE + hdr_len buf : Nat) : Int) then Run.abort .message_malformed
  else if hdr_service_id buf > K.HAL_SERVICE_ID_MAX then Run.abort .unknown_service
  else
    match (services (hdr_service_id buf)).handler with
    | none => Run.abort .unregistered_service
    | some table =>
      if hdr_opcode buf < K.HAL_MINIMUM_EVENT then Run.abort .invalid_opcode
      else
        let opcode := adjusted_opcode K buf
        if opcode ≥ (services (hdr_service_id buf)).size then Run.abort .invalid_opcode
        else
          match table[opcode]? with
          | none => { calls := [], status := .undefined }
          | some handler =>
            if (handler.var_len && decide (handler.data_len > hdr_len buf)) ||
                (!handler.var_len && decide (handler.data_len ≠ hdr_len buf)) then
              Run.abort .message_size_invalid
            else
              { calls := [{ handler := handler.handler,
                            payload := hdr_payload buf (hdr_len buf),
                            len := hdr_len buf }],
                status := .returned }

/-! ## Command channel -/

abbrev Word := Fin 65536

/-- One control message that comes with a record; `data` is the `int` at
`CMSG_DATA`. -/
structure Cmsg where
  cmsg_level : Int
  cmsg_type : Int
  data : Int
deriving Repr, DecidableEq

def SOL_SOCKET : Int := 1

def SCM_RIGHTS : Int := 1

/-- A record delivered by the peer on the command socket (`SOCK_SEQPACKET`):
its bytes and the control messages that come with it. -/
structure Reply where
  data : List Byte
  control : List Cmsg
deriving Repr, DecidableEq

/-- What the command socket does during one call: the value of `cmd_sk`, the
result of `sendmsg`, and what `recvmsg` delivers (`none`: it fails with a
negative result). -/
structure CmdEnv where
  cmd_sk : Int
  sendmsg_ret : Int
  recvmsg : Option Reply
deriving Repr, DecidableEq

/-- Modelled from the spec: the memory image of a `struct hal_hdr` (declared
in the missing `hal-msg.h`) after `cmd.service_id = service_id`,
`cmd.opcode = opcode`, `cmd.len = len`, following the frame layout
`[service_id: 1 byte][opcode: 1 byte][payload_length: 2 bytes little-endian]`. -/
def cmd_hdr (service_id opcode : Byte) (len : Word) : List Byte :=
  [service_id, opcode, ⟨len.val % 256, Nat.mod_lt _ (by decide)⟩,
    ⟨len.val / 256 % 256, Nat.mod_lt _ (by decide)⟩]

/-- The bytes the two-element `iovec` of the request describes: the header
`cmd` and `len` bytes of `param`. -/
def request_frame (service_id opcode : Byte) (len : Word) (param : List Byte) : List Byte :=
  cmd_hdr service_id opcode len ++ param.take len.val

/-- Result of `recvmsg` on a record of `data` bytes with an `iovec` of
`HDR_SIZE + cap` bytes: the number of bytes stored; what does not fit is
discarded by the socket. -/
def recv_ret (data : List Byte) (cap : Nat) : Int := ((min data.length (HDR_SIZE + cap) : Nat) : Int)

/-- The header `cmd` after the receive (it was cleared before). -/
def recv_cmd (data : List Byte) : List Byte := data.take HDR_SIZE

/-- The reply buffer after the receive: at most `cap` bytes that follow the
header overwrite its start. -/
def recv_rsp (data : List Byte) (cap : Nat) (rsp : List Byte) : List Byte :=
  (data.drop HDR_SIZE).take cap ++ rsp.drop ((data.drop HDR_SIZE).take cap).length

/-- The control messages `recvmsg` stores into
`cmsgbuf[CMSG_SPACE(sizeof(int))]`: the buffer has room for one message that
carries one `int`, so of the messages that come with a record only the first
is stored; the others are cut off. -/
def recv_control (control : List Cmsg) : List Cmsg := control.take 1

/-- The loop over the stored control messages: `*fd = -1`, then the first
`SOL_SOCKET`/`SCM_RIGHTS` message overwrites it. -/
def scm_rights_fd : List Cmsg → Int
  | [] => -1
  | c :: cs => if c.cmsg_level = SOL_SOCKET ∧ c.cmsg_type = SCM_RIGHTS then c.data
               else scm_rights_fd cs

/-- The first `SOL_SOCKET`/`SCM_RIGHTS` control message among all those that
come with a reply, if there is one. -/
def first_scm_rights (control : List Cmsg) : Option Cmsg :=
  control.find? (fun c => decide (c.cmsg_level = SOL_SOCKET ∧ c.cmsg_type = SCM_RIGHTS))

/-- What the caller sees when `hal_ipc_cmd` returns: the returned `int` and
the memory behind the three out-pointers (`none` for a `NULL` pointer). -/
structure CmdResult where
  status : Int
  rsp_len : Option Nat
  rsp : Option (List Byte)
  fd : Option Int
deriving Repr, DecidableEq

/-- End of a `hal_ipc_cmd` call. -/
inductive Outcome
  | exit (f : Fault)
  | ret (r : CmdResult)
deriving Repr, DecidableEq

/-- A run of `hal_ipc_cmd`: the frames handed to `sendmsg` and how the call
ended. -/
structure CmdRun where
  sent : List (List Byte)
  outcome : Outcome
deriving Repr, DecidableEq

/-- The test `!rsp || !rsp_len`: the call has no reply buffer of its own and
the local `struct hal_status s` takes the reply. -/
def own_status (rsp_len : Option Nat) (rsp : Option (List Byte)) : Bool :=
  rsp.isNone || rsp_len.isNone

/-- The value `*rsp_len` that becomes `iv[1].iov_len` of the receive:
`sizeof(s)` when the local status is used, the caller's value otherwise. -/
def rsp_capacity (rsp_len : Option Nat) (rsp : Option (List Byte)) : Nat :=
  if own_status rsp_len rsp then STATUS_SIZE else rsp_len.getD 0

/-- The memory `rsp` points to before the receive: the cleared local status
or the caller's buffer. -/
def rsp_initial (rsp_len : Option Nat) (rsp : Option (List Byte)) : List Byte :=
  if own_status rsp_len rsp then [0] else rsp.getD []

/-- Embedding of `hal_ipc_cmd`. `rsp_len`, `rsp` and `fd` are the memory
behind the pointers, `none` for `NULL`; `rsp_len` holds the capacity the
caller announces for `rsp`. -/
def hal_ipc_cmd (K : HalConsts) (env : CmdEnv) (service_id opcode : Byte) (len : Word)
    (param : List Byte) (rsp_len : Option Nat) (rsp : Option (List Byte))
    (fd : Option Int) : CmdRun :=
  if env.cmd_sk < 0 then { sent := [], outcome := .exit .invalid_cmd_socket }
  else
    let own := own_status rsp_len rsp
    let frame := request_frame service_id opcode len param
    if env.sendmsg_ret < 0 then { sent := [frame], outcome := .exit .sending_failed }
    else if env.sendmsg_ret = 0 then { sent := [frame], outcome := .exit .command_socket_closed }
    else
      match env.recvmsg with
      | none => { sent := [frame], outcome := .exit .receiving_failed }
      | some reply =>
        let ret := recv_ret reply.data (rsp_capacity rsp_len rsp)
        let cmd := recv_cmd reply.data
        let buf := recv_rsp reply.data (rsp_capacity rsp_len rsp) (rsp_initial rsp_len rsp)
        if ret < (HDR_SIZE : Int) then { sent := [frame], outcome := .exit .response_too_small }
        else if hdr_service_id cmd ≠ service_id.val then
          { sent := [frame], outcome := .exit .invalid_service_id }
        else if ret ≠ ((HDR_SIZE + hdr_len cmd : Nat) : Int) then
          { sent := [frame], outcome := .exit .response_malformed }
        else if hdr_opcode cmd ≠ opcode.val ∧ hdr_opcode cmd ≠ K.HAL_OP_STATUS then
          { sent := [frame], outcome := .exit .invalid_opcode_received }
        else if hdr_opcode cmd = K.HAL_OP_STATUS then
          if STATUS_SIZE ≠ hdr_len cmd then
            { sent := [frame], outcome := .exit .invalid_status_length }
          else if byteAt buf 0 = K.HAL_STATUS_SUCCESS then
            { sent := [frame], outcome := .exit .invalid_success_status }
          else
            { sent := [frame],
              outcome := .ret { status := (byteAt buf 0 : Int)
                                rsp_len := rsp_len
                                rsp := if own then rsp else some buf
                                fd := fd } }
        else
          { sent := [frame],
            outcome := .ret { status := K.BT_STATUS_SUCCESS
                              rsp_len := if own then rsp_len else some (hdr_len cmd)
                              rsp := if own then rsp else some buf
                              fd := fd.map (fun _ => scm_rights_fd (recv_control reply.control)) } }

/-- An environment in which the socket is connected, the send succeeds and
the peer answers with the record `data` (no control message). -/
def answering (data : List Byte) : CmdEnv :=
  { cmd_sk := 5, sendmsg_ret := 4, recvmsg := some { data := data, control := [] } }

/-! ## Session life cycle -/

/-- The three file-scope variables of the transport. -/
structure IpcState where
  cmd_sk : Int
  notif_sk : Int
  notif_th : Nat
deriving Repr, DecidableEq

/-- The initial values: `cmd_sk = -1`, `notif_sk = -1`, `notif_th = 0`. -/
def IpcState.initial : IpcState := { cmd_sk := -1, notif_sk := -1, notif_th := 0 }

/-- Calls and stores whose order the life cycle is about. -/
inductive Effect
  | close (fd : Int)
  | shutdown_rd (fd : Int)
  | pthread_create (err : Int)
  | pthread_join (th : Nat)
  | store_cmd_sk (v : Int)
  | store_notif_sk (v : Int)
  | store_notif_th (v : Nat)
  | thread_associate
  | thread_disassociate
deriving Repr, DecidableEq

/-- One pass through `recvmsg(notif_sk, ...)` in the notification thread: the
result `ret`, the contents of `buf` after the call, and the value of `cmd_sk`
the thread sees if it tests it in this pass. -/
structure NotifEvent where
  ret : Int
  buf : List Byte
  cmd_sk : Int
deriving Repr, DecidableEq

/-- How the notification thread ends: it leaves the loop and returns
(`stopped`), the process is terminated through `exit` (`aborted`), the
dispatcher read outside a table (`undefined`), or the thread is still waiting
in `recvmsg` after the events considered (`waiting`). -/
inductive ThreadEnd
  | stopped
  | aborted (f : Fault)
  | undefined
  | waiting
deriving Repr, DecidableEq

/-- How the callbacks invoked by one dispatch end, given how each callback
ends (`cb`): the first one that does not return decides. -/
def calls_end {H : Type} (cb : Invocation H → Status) : List (Invocation H) → Status
  | [] => .returned
  | c :: cs =>
    match cb c with
    | .returned => calls_end cb cs
    | s => s

/-- The `while (true)` loop of `notification_handler` over the receives it
performs: the callbacks invoked and how the loop ends. The scan of the control
messages sets only the local `fd`, which is not used afterwards. -/
def notification_loop {H : Type} (K : HalConsts) (services : Services H)
    (cb : Invocation H → Status) : List NotifEvent → List (Invocation H) × ThreadEnd
  | [] => ([], .waiting)
  | ev :: rest =>
    if ev.ret < 0 then ([], .aborted .receiving_notifications_failed)
    else if ev.ret = 0 then
      if ev.cmd_sk = -1 then ([], .stopped)
      else ([], .aborted .notification_socket_closed)
    else
      let r := handle_msg K services ev.buf ev.ret
      match r.status with
      | .exited f => (r.calls, .aborted f)
      | .undefined => (r.calls, .undefined)
      | .returned =>
        match calls_end cb r.calls with
        | .exited f => (r.calls, .aborted f)
        | .undefined => (r.calls, .undefined)
        | .returned =>
          let next := notification_loop K services cb rest
          (r.calls ++ next.1, next.2)

/-- A run of the notification thread. -/
structure ListenerRun (H : Type) where
  calls : List (Invocation H)
  effects : List Effect
  notif_sk : Int
  ending : ThreadEnd
deriving Repr, DecidableEq

/-- Embedding of `notification_handler`: `bt_thread_associate()`, the loop,
and after a `break` `close(notif_sk)`, `notif_sk = -1`,
`bt_thread_disassociate()`. -/
def notification_handler {H : Type} (K : HalConsts) (services : Services H)
    (cb : Invocation H → Status) (notif_sk : Int) (events : List NotifEvent) : ListenerRun H :=
  let l := notification_loop K services cb events
  if l.2 = .stopped then
    { calls := l.1
      effects := [.thread_associate, .close notif_sk, .store_notif_sk (-1), .thread_disassociate]
      notif_sk := -1
      ending := .stopped }
  else
    { calls := l.1, effects := [.thread_associate], notif_sk := notif_sk, ending := l.2 }

/-- A receive that delivers a record which the dispatcher accepts and whose
callback returns: the loop goes on to the next receive. -/
def dispatched {H : Type} (K : HalConsts) (services : Services H)
    (cb : Invocation H → Status) (ev : NotifEvent) : Prop :=
  0 < ev.ret ∧ (handle_msg K services ev.buf ev.ret).status = .returned
    ∧ calls_end cb (handle_msg K services ev.buf ev.ret).calls = .returned

/-- Embedding of `accept_connection`, given the results of `poll` and
`accept` on the listening socket. -/
def accept_connection (poll_ret accept_ret : Int) : Int :=
  if poll_ret < 0 then -1
  else if poll_ret = 0 then -1
  else if accept_ret < 0 then -1
  else accept_ret

/-- Results of the system calls `hal_ipc_init` makes, in call order; `thread`
is what `pthread_create` leaves in `notif_th`. -/
structure InitEnv where
  socket : Int
  bind : Int
  listen : Int
  property_set : Int
  poll1 : Int
  accept1 : Int
  poll2 : Int
  accept2 : Int
  pthread_create : Int
  thread : Nat
deriving Repr, DecidableEq

/-- A run of `hal_ipc_init`: the returned `bool`, the variables afterwards,
and the sockets closed and threads created on the way. -/
structure InitRun where
  ret : Bool
  state : IpcState
  effects : List Effect
deriving Repr, DecidableEq

/-- Embedding of `hal_ipc_init`. -/
def hal_ipc_init (env : InitEnv) (s : IpcState) : InitRun :=
  if env.socket < 0 then { ret := false, state := s, effects := [] }
  else if env.bind < 0 then { ret := false, state := s, effects := [.close env.socket] }
  else if env.listen < 0 then { ret := false, state := s, effects := [.close env.socket] }
  else if env.property_set < 0 then { ret := false, state := s, effects := [.close env.socket] }
  else
    let cmd_sk := accept_connection env.poll1 env.accept1
    if cmd_sk < 0 then
      { ret := false, state := { s with cmd_sk := cmd_sk }, effects := [.close env.socket] }
    else
      let notif_sk := accept_connection env.poll2 env.accept2
      if notif_sk < 0 then
        { ret := false
          state := { s with cmd_sk := -1, notif_sk := notif_sk }
          effects := [.close env.socket, .close cmd_sk] }
      else if env.pthread_create < 0 then
        { ret := false
          state := { cmd_sk := -1, notif_sk := -1, notif_th := 0 }
          effects := [.close env.socket, .pthread_create env.pthread_create, .close cmd_sk,
                      .close notif_sk] }
      else
        { ret := true
          state := { cmd_sk := cmd_sk, notif_sk := notif_sk, notif_th := env.thread }
          effects := [.close env.socket, .pthread_create env.pthread_create] }

/-- A run of `hal_ipc_cleanup`: its own calls and stores in order, the run of
the notification thread it joins, the variables afterwards, and whether the
call returns (it does when the joined thread stops). -/
structure CleanupRun (H : Type) where
  effects : List Effect
  listener : ListenerRun H
  state : IpcState
  returned : Bool
deriving Repr, DecidableEq

/-- Embedding of `hal_ipc_cleanup`. `received` is what the notification
thread receives until the shutdown of the read side takes effect; the
shutdown then makes its `recvmsg` return 0, and the thread tests `cmd_sk` as
the cleanup has left it by then. `pthread_join` waits for the end of that
thread. -/
def hal_ipc_cleanup {H : Type} (K : HalConsts) (services : Services H)
    (cb : Invocation H → Status) (s : IpcState) (received : List NotifEvent) : CleanupRun H :=
  -- close(cmd_sk); cmd_sk = -1;
  let s1 : IpcState := { s with cmd_sk := -1 }
  -- shutdown(notif_sk, SHUT_RD); pthread_join(notif_th, NULL);
  let l := notification_handler K services cb s1.notif_sk
    (received ++ [{ ret := 0, buf := [], cmd_sk := s1.cmd_sk }])
  if l.ending = .stopped then
    { effects := [.close s.cmd_sk, .store_cmd_sk (-1), .shutdown_rd s.notif_sk,
                  .pthread_join s.notif_th, .store_notif_th 0]
      listener := l
      state := { cmd_sk := s1.cmd_sk, notif_sk := l.notif_sk, notif_th := 0 }
      returned := true }
  else
    { effects := [.close s.cmd_sk, .store_cmd_sk (-1), .shutdown_rd s.notif_sk,
                  .pthread_join s.notif_th]
      listener := l
      state := { s1 with notif_sk := l.notif_sk }
      returned := false }

/-! ## Bluetooth service: event handlers (android/hal-bluetooth.c) -/

/-- Sizes, field offsets and constants of the packed wire structures of
`hal-msg.h`, which is not among the sources at hand. A 16-bit field is read
little-endian at its offset; the flexible array of a structure starts at the
structure's size. -/
structure HalLayout where
  HAL_SERVICE_ID_BLUETOOTH : Nat
  HAL_PROP_ADAPTER_TYPE : Nat
  HAL_PROP_ADAPTER_SCAN_MODE : Nat
  HAL_PROP_DEVICE_TYPE : Nat
  sizeof_hal_property : Nat
  hal_property_type : Nat
  hal_property_len : Nat
  sizeof_adapter_state_changed : Nat
  sizeof_adapter_props_changed : Nat
  adapter_props_changed_status : Nat
  adapter_props_changed_num_props : Nat
  sizeof_remote_device_props : Nat
  remote_device_props_status : Nat
  remote_device_props_num_props : Nat
  sizeof_device_found : Nat
  device_found_num_props : Nat
  sizeof_discovery_state_changed : Nat
  sizeof_pin_request : Nat
  sizeof_ssp_request : Nat
  sizeof_bond_state_changed : Nat
  sizeof_acl_state_changed : Nat
  sizeof_dut_mode_receive : Nat
  dut_mode_receive_len : Nat
deriving Repr, DecidableEq

/-- A concrete layout, used for concrete runs: `struct hal_property` is
`{ uint8_t type; uint16_t len; uint8_t val[0]; }`, the adapter properties
event is `{ uint8_t status; uint8_t num_props; struct hal_property props[0]; }`,
and so on, all packed. -/
def bluez_layout : HalLayout where
  HAL_SERVICE_ID_BLUETOOTH := 1
  HAL_PROP_ADAPTER_TYPE := 0x05
  HAL_PROP_ADAPTER_SCAN_MODE := 0x07
  HAL_PROP_DEVICE_TYPE := 0x05
  sizeof_hal_property := 3
  hal_property_type := 0
  hal_property_len := 1
  sizeof_adapter_state_changed := 1
  sizeof_adapter_props_changed := 2
  adapter_props_changed_status := 0
  adapter_props_changed_num_props := 1
  sizeof_remote_device_props := 8
  remote_device_props_status := 0
  remote_device_props_num_props := 7
  sizeof_device_found := 1
  device_found_num_props := 0
  sizeof_discovery_state_changed := 1
  sizeof_pin_request := 259
  sizeof_ssp_request := 264
  sizeof_bond_state_changed := 8
  sizeof_acl_state_changed := 8
  sizeof_dut_mode_receive := 3
  dut_mode_receive_len := 2

/-- The functions of the table `ev_handlers`, by name. -/
inductive BtHandler
  | handle_adapter_state_changed
  | handle_adapter_props_changed
  | handle_device_state_changed
  | handle_device_found
  | handle_discovery_state_changed
  | handle_pin_request
  | handle_ssp_request
  | handle_bond_state_change
  | handle_acl_state_changed
  | handle_dut_mode_receive
deriving Repr, DecidableEq

/-- The table `ev_handlers`; the index is `opcode - HAL_MINIMUM_EVENT`. -/
def ev_handlers (L : HalLayout) : List (hal_ipc_handler BtHandler) :=
  [ { handler := .handle_adapter_state_changed, var_len := false,
      data_len := L.sizeof_adapter_state_changed },
    { handler := .handle_adapter_props_changed, var_len := true,
      data_len := L.sizeof_adapter_props_changed + L.sizeof_hal_property },
    { handler := .handle_device_state_changed, var_len := true,
      data_len := L.sizeof_remote_device_props + L.sizeof_hal_property },
    { handler := .handle_device_found, var_len := true,
      data_len := L.sizeof_device_found + L.sizeof_hal_property },
    { handler := .handle_discovery_state_changed, var_len := false,
      data_len := L.sizeof_discovery_state_changed },
    { handler := .handle_pin_request, var_len := false, data_len := L.sizeof_pin_request },
    { handler := .handle_ssp_request, var_len := false, data_len := L.sizeof_ssp_request },
    { handler := .handle_bond_state_change, var_len := false,
      data_len := L.sizeof_bond_state_changed },
    { handler := .handle_acl_state_changed, var_len := false,
      data_len := L.sizeof_acl_state_changed },
    { handler := .handle_dut_mode_receive, var_len := true,
      data_len := L.sizeof_dut_mode_receive } ]

/-- The service table after `init` has registered the Bluetooth service:
`hal_ipc_register(HAL_SERVICE_ID_BLUETOOTH, ev_handlers,
sizeof(ev_handlers)/sizeof(ev_handlers[0]))`. -/
def bt_services (L : HalLayout) : Services BtHandler :=
  hal_ipc_register (services_init BtHandler) L.HAL_SERVICE_ID_BLUETOOTH (ev_handlers L)
    (ev_handlers L).length

/-- A 16-bit little-endian field at offset `i`. -/
def read16 (buf : List Byte) (i : Nat) : Nat := byteAt buf i + 256 * byteAt buf (i + 1)

/-- An entry of `send_props` as the decoders fill it: `val` are the bytes
`len` and `val` of the `bt_property_t` refer to in the event. -/
structure SendProp where
  type : Nat
  len : Nat
  val : List Byte
deriving Repr, DecidableEq

/-- What decoding an event does with the memory behind the payload pointer:
the offsets it reads (from the start of the payload, in order of first access
within each property), the properties it hands on, and how it ends. -/
structure DecodeRun where
  reads : List Nat
  props : List SendProp
  status : Status
deriving Repr, DecidableEq

/-- The loop of `adapter_props_to_hal` / `device_props_to_hal` from the
property at offset `off`, with `num_props` properties to go and `len` bytes
left. `enum_types` are the property types copied with `enum_prop_to_hal`
(which reads `*((uint8_t *) prop->val)` and sets the length to `sizeof_enum`);
`bad` and `left` are the two diagnostics. -/
def props_to_hal (L : HalLayout) (enum_types : List Nat) (sizeof_enum : Nat)
    (bad left : Fault) (buf : List Byte) : Nat → Nat → Nat → DecodeRun
  | _, 0, len =>
    if len = 0 then { reads := [], props := [], status := .returned }
    else { reads := [], props := [], status := .exited left }
  | off, n + 1, len =>
    let plen := read16 buf (off + L.hal_property_len)
    let rd_len := [off + L.hal_property_len, off + L.hal_property_len + 1]
    -- `if (sizeof(*prop) + prop->len > len)`
    if L.sizeof_hal_property + plen > len then
      { reads := rd_len, props := [], status := .exited bad }
    else
      let type := byteAt buf (off + L.hal_property_type)
      let val := off + L.sizeof_hal_property
      let rest := props_to_hal L enum_types sizeof_enum bad left buf
        (off + (L.sizeof_hal_property + plen)) n (len - (L.sizeof_hal_property + plen))
      if type ∈ enum_types then
        { reads := rd_len ++ [off + L.hal_property_type, val] ++ rest.reads
          props := { type := type, len := sizeof_enum, val := [buf.getD val 0] } :: rest.props
          status := rest.status }
      else
        { reads := rd_len ++ [off + L.hal_property_type] ++ rest.reads
          props := { type := type, len := plen, val := (buf.drop val).take plen } :: rest.props
          status := rest.status }

/-- Embedding of `adapter_props_to_hal`; `sizeof_enum` stands for the size of
the `bt_device_type_t` / `bt_scan_mode_t` enums. -/
def adapter_props_to_hal (L : HalLayout) (sizeof_enum : Nat) (buf : List Byte)
    (off num_props len : Nat) : DecodeRun :=
  props_to_hal L [L.HAL_PROP_ADAPTER_TYPE, L.HAL_PROP_ADAPTER_SCAN_MODE] sizeof_enum
    .invalid_adapter_properties .adapter_properties_bytes_left buf off num_props len

/-- Embedding of `device_props_to_hal`. -/
def device_props_to_hal (L : HalLayout) (sizeof_enum : Nat) (buf : List Byte)
    (off num_props len : Nat) : DecodeRun :=
  props_to_hal L [L.HAL_PROP_DEVICE_TYPE] sizeof_enum
    .invalid_device_properties .device_properties_bytes_left buf off num_props len

/-- The `uint16_t` update `len -= sizeof(*ev)`. -/
def sub16 (len size : Nat) : Nat := (len + 65536 - size % 65536) % 65536

/-- A property-carrying handler (`handle_adapter_props_changed`,
`handle_device_found`, `handle_device_state_changed`): it reads
`ev->num_props` for the array `props`, returns if the callback is not set,
otherwise decodes the properties after the fixed part and, if that returns,
calls the callback with the fields of the fixed part (`fixed` are the offsets
the call reads). -/
def props_handler (decode : List Byte → Nat → Nat → Nat → DecodeRun) (sizeof_ev num_props : Nat)
    (fixed : List Nat) (cb_set : Bool) (buf : List Byte) (len : Nat) : DecodeRun :=
  if !cb_set then { reads := [num_props], props := [], status := .returned }
  else
    let r := decode buf sizeof_ev (byteAt buf num_props) (sub16 len sizeof_ev)
    match r.status with
    | .returned => { reads := num_props :: r.reads ++ fixed, props := r.props, status := .returned }
    | st => { reads := num_props :: r.reads, props := r.props, status := st }

/-- Embedding of `handle_adapter_props_changed`. -/
def handle_adapter_props_changed (L : HalLayout) (sizeof_enum : Nat) (cb_set : Bool)
    (buf : List Byte) (len : Nat) : DecodeRun :=
  props_handler (adapter_props_to_hal L sizeof_enum) L.sizeof_adapter_props_changed
    L.adapter_props_changed_num_props
    [L.adapter_props_changed_status, L.adapter_props_changed_num_props] cb_set buf len

/-- Embedding of `handle_device_found`. -/
def handle_device_found (L : HalLayout) (sizeof_enum : Nat) (cb_set : Bool)
    (buf : List Byte) (len : Nat) : DecodeRun :=
  props_handler (device_props_to_hal L sizeof_enum) L.sizeof_device_found
    L.device_found_num_props [L.device_found_num_props] cb_set buf len

/-- Embedding of `handle_device_state_changed`. -/
def handle_device_state_changed (L : HalLayout) (sizeof_enum : Nat) (cb_set : Bool)
    (buf : List Byte) (len : Nat) : DecodeRun :=
  props_handler (device_props_to_hal L sizeof_enum) L.sizeof_remote_device_props
    L.remote_device_props_num_props
    [L.remote_device_props_status, L.remote_device_props_num_props] cb_set buf len

/-- Embedding of `handle_dut_mode_receive`: `ev->len` is read, and unless
`len != sizeof(*ev) + ev->len` the callback gets the fixed part and `ev->len`
bytes of data. -/
def handle_dut_mode_receive (L : HalLayout) (cb_set : Bool) (buf : List Byte) (len : Nat) :
    DecodeRun :=
  if len ≠ L.sizeof_dut_mode_receive + byteAt buf L.dut_mode_receive_len then
    { reads := [L.dut_mode_receive_len], props := [], status := .exited .invalid_dut_mode_receive }
  else if cb_set then
    { reads := L.dut_mode_receive_len ::
        List.range (L.sizeof_dut_mode_receive + byteAt buf L.dut_mode_receive_len)
      props := [], status := .returned }
  else { reads := [L.dut_mode_receive_len], props := [], status := .returned }

/-- A handler of a fixed-length event: it overlays the event structure on the
payload and hands its fields to the callback; the reads are counted as the
whole structure. -/
def fixed_handler (sizeof_ev : Nat) : DecodeRun :=
  { reads := List.range sizeof_ev, props := [], status := .returned }

/-- What the function a table entry names does with the payload pointer and
length it is called with; `cb_set` tells whether the callback the handler
serves is set in `bt_hal_cbacks`. -/
def bt_handler_run (L : HalLayout) (sizeof_enum : Nat) (cb_set : Bool)
    (inv : Invocation BtHandler) : DecodeRun :=
  match inv.handler with
  | .handle_adapter_state_changed => fixed_handler L.sizeof_adapter_state_changed
  | .handle_adapter_props_changed =>
    handle_adapter_props_changed L sizeof_enum cb_set inv.payload inv.len
  | .handle_device_state_changed =>
    handle_device_state_changed L sizeof_enum cb_set inv.payload inv.len
  | .handle_device_found => handle_device_found L sizeof_enum cb_set inv.payload inv.len
  | .handle_discovery_state_changed => fixed_handler L.sizeof_discovery_state_changed
  | .handle_pin_request => fixed_handler L.sizeof_pin_request
  | .handle_ssp_request => fixed_handler L.sizeof_ssp_request
  | .handle_bond_state_change => fixed_handler L.sizeof_bond_state_changed
  | .handle_acl_state_changed => fixed_handler L.sizeof_acl_state_changed
  | .handle_dut_mode_receive => handle_dut_mode_receive L cb_set inv.payload inv.len

/-- A decoding is length-safe when every offset it reads lies inside the
`len` bytes of the payload. -/
def length_safe (r : DecodeRun) (len : Nat) : Prop := ∀ o ∈ r.reads, o < len

instance (r : DecodeRun) (len : Nat) : Decidable (length_safe r len) := by
  unfold length_safe
  infer_instance

/-! ## Property areas and table accesses -/

/-- The sizes of the `n` consecutive property records that start at offset
`off`: each is the header size plus the value length its header declares. -/
def record_sizes (L : HalLayout) (buf : List Byte) : Nat → Nat → List Nat
  | _, 0 => []
  | off, n + 1 =>
    (L.sizeof_hal_property + read16 buf (off + L.hal_property_len)) ::
      record_sizes L buf
        (off + (L.sizeof_hal_property + read16 buf (off + L.hal_property_len))) n

/-- Records of the given sizes each fit in the bytes still remaining of an
area of `len` bytes and together consume exactly `len` bytes. -/
def records_fit : List Nat → Nat → Prop
  | [], len => len = 0
  | size :: rest, len => size ≤ len ∧ records_fit rest (len - size)

/-- An array access or a subtraction `handle_msg` evaluates. -/
inductive Access
  | service (i : Nat)
  | handler (service i : Nat)
  | subtract (opcode : Nat)
deriving Repr, DecidableEq

/-- The dispatcher `handle_msg` together with the accesses it makes, in
order: `services[msg->service_id]` at the registration test, the subtraction
`msg->opcode - HAL_MINIMUM_EVENT`, `services[msg->service_id]` at the size
test and at the fetch of the table, and the entry `handler[opcode]`. -/
def handle_msg_traced {H : Type} (K : HalConsts) (services : Services H) (buf : List Byte)
    (len : Int) : Run H × List Access :=
  if len < (HDR_SIZE : Int) then (Run.abort .message_too_small, [])
  else if len ≠ ((HDR_SIZE + hdr_len buf : Nat) : Int) then (Run.abort .message_malformed, [])
  else if hdr_service_id buf > K.HAL_SERVICE_ID_MAX then (Run.abort .unknown_service, [])
  else
    match (services (hdr_service_id buf)).handler with
    | none => (Run.abort .unregistered_service, [.service (hdr_service_id buf)])
    | some table =>
      if hdr_opcode buf < K.HAL_MINIMUM_EVENT then
        (Run.abort .invalid_opcode, [.service (hdr_service_id buf)])
      else
        let opcode := adjusted_opcode K buf
        if opcode ≥ (services (hdr_service_id buf)).size then
          (Run.abort .invalid_opcode,
            [.service (hdr_service_id buf), .subtract (hdr_opcode buf),
             .service (hdr_service_id buf)])
        else
          let accesses : List Access :=
            [.service (hdr_service_id buf), .subtract (hdr_opcode buf),
             .service (hdr_service_id buf), .service (hdr_service_id buf),
             .handler (hdr_service_id buf) opcode]
          match table[opcode]? with
          | none => ({ calls := [], status := .undefined }, accesses)
          | some handler =>
            if (handler.var_len && decide (handler.data_len > hdr_len buf)) ||
                (!handler.var_len && decide (handler.data_len ≠ hdr_len buf)) then
              (Run.abort .message_size_invalid, accesses)
            else
              ({ calls := [{ handler := handler.handler,
                             payload := hdr_payload buf (hdr_len buf),
                             len := hdr_len buf }],
                 status := .returned }, accesses)

/-- Every registered size equals the length of the registered handler array. -/
def registry_sized {H : Type} (services : Services H) : Prop :=
  ∀ s table, (services s).handler = some table → (services s).size = table.length

/-- What the claim about the accesses asks of one access: a service-table
index is at most `HAL_SERVICE_ID_MAX`; a handler-table index is below the
registered size of a registered table (and inside the array); a subtraction
is evaluated on an opcode that is at least `HAL_MINIMUM_EVENT`, so that the
difference is between 0 and 255 and the 8-bit result is the difference. -/
def access_ok {H : Type} (K : HalConsts) (services : Services H) (buf : List Byte) :
    Access → Prop
  | .service i => i ≤ K.HAL_SERVICE_ID_MAX
  | .handler s i =>
    ∃ table, (services s).handler = some table ∧ i < (services s).size ∧ i < table.length
  | .subtract opcode =>
    K.HAL_MINIMUM_EVENT ≤ opcode
      ∧ (0 : Int) ≤ (opcode : Int) - (K.HAL_MINIMUM_EVENT : Int)
      ∧ (opcode : Int) - (K.HAL_MINIMUM_EVENT : Int) < 256
      ∧ adjusted_opcode K buf = hdr_opcode buf - K.HAL_MINIMUM_EVENT

/-! ## Bluetooth service: interface operations (android/hal-bluetooth.c) -/

/-- Constants the interface operations take from headers that are not among
the sources at hand (`hal.h`, `hal-msg.h`): status codes, service ids,
opcodes and the sizes of two command structures. -/
structure BtConsts where
  BT_STATUS_FAIL : Int
  BT_STATUS_NOT_READY : Int
  BT_STATUS_DONE : Int
  HAL_SERVICE_ID_CORE : Byte
  HAL_SERVICE_ID_SOCK : Byte
  HAL_OP_REGISTER_MODULE : Byte
  HAL_OP_SET_ADAPTER_PROP : Byte
  sizeof_cmd_register_module : Nat
  sizeof_cmd_set_adapter_prop : Nat
deriving Repr, DecidableEq

/-- A concrete choice of these constants, used for concrete runs. -/
def bluez_bt : BtConsts where
  BT_STATUS_FAIL := 1
  BT_STATUS_NOT_READY := 2
  BT_STATUS_DONE := 5
  HAL_SERVICE_ID_CORE := 0
  HAL_SERVICE_ID_SOCK := 2
  HAL_OP_REGISTER_MODULE := 1
  HAL_OP_SET_ADAPTER_PROP := 5
  sizeof_cmd_register_module := 1
  sizeof_cmd_set_adapter_prop := 3

/-- Conversion to `uint8_t`. -/
def toByte (n : Nat) : Byte := ⟨n % 256, Nat.mod_lt _ (by decide)⟩

/-- Conversion to `uint16_t`. -/
def toWord (n : Nat) : Word := ⟨n % 65536, Nat.mod_lt _ (by decide)⟩

/-- The file-scope state the interface operations work on: the callback
pointer `bt_hal_cbacks` (`none` for `NULL`), the service table of the
transport and its three variables. -/
structure BtState where
  bt_hal_cbacks : Option Nat
  services : Services BtHandler
  ipc : IpcState

/-- The state at program start. -/
def bt_initial : BtState :=
  { bt_hal_cbacks := none, services := services_init BtHandler, ipc := IpcState.initial }

/-- Embedding of `interface_ready`. -/
def interface_ready (s : BtState) : Bool := s.bt_hal_cbacks.isSome

/-- How an interface operation ends: it returns a status, it returns from a
`void` function, the process is terminated through `exit`, or the run is
undefined. -/
inductive CallEnd
  | ret (status : Int)
  | done
  | exit (f : Fault)
  | undefined
deriving Repr, DecidableEq

/-- The operation came back to its caller. -/
def CallEnd.returns : CallEnd → Bool
  | .ret _ => true
  | .done => true
  | .exit _ => false
  | .undefined => false

/-- A run of an interface operation: the `hal_ipc_cmd` calls it made (each
with the value of `cmd_sk` it ran on), how it ended, and the state
afterwards. -/
structure BtRun where
  cmds : List (Int × CmdRun)
  ending : CallEnd
  state : BtState

/-- How the callback behind an invocation ends, as the notification thread
sees it. -/
def bt_cb (L : HalLayout) (sizeof_enum : Nat) (cb_set : Bool) (inv : Invocation BtHandler) :
    Status :=
  (bt_handler_run L sizeof_enum cb_set inv).status

/-- The sequence shared by the label `fail:` of `init` and by `cleanup`:
`hal_ipc_cleanup()`, `bt_hal_cbacks = NULL`,
`hal_ipc_unregister(HAL_SERVICE_ID_BLUETOOTH)`, and then the return described
by `ending`. If the joined notification thread does not stop, the operation
does not come back. -/
def bt_teardown (K : HalConsts) (L : HalLayout) (sizeof_enum : Nat)
    (received : List NotifEvent) (cb_set : Bool) (cmds : List (Int × CmdRun))
    (ending : CallEnd) (s : BtState) : BtRun :=
  let c := hal_ipc_cleanup K s.services (bt_cb L sizeof_enum cb_set) s.ipc received
  if c.returned then
    { cmds := cmds
      ending := ending
      state := { bt_hal_cbacks := none
                 services := hal_ipc_unregister s.services L.HAL_SERVICE_ID_BLUETOOTH
                 ipc := c.state } }
  else
    { cmds := cmds
      ending := match c.listener.ending with
                | .aborted f => .exit f
                | _ => .undefined
      state := { s with ipc := c.state } }

/-- What the system does during one `init`: the results of the calls of
`hal_ipc_init`, the command socket during the two registration commands (its
`cmd_sk` is taken from the state), and, for the failure path, what the
notification thread receives before it is joined and whether the callbacks
are set. -/
structure InitIo where
  init : InitEnv
  cmd1 : CmdEnv
  cmd2 : CmdEnv
  received : List NotifEvent
  cb_set : Bool
deriving Repr, DecidableEq

/-- Embedding of `init`. The command structure `hal_cmd_register_module`
holds the service id in its first byte. -/
def bt_init (K : HalConsts) (L : HalLayout) (B : BtConsts) (sizeof_enum : Nat) (io : InitIo)
    (callbacks : Option Nat) (s : BtState) : BtRun :=
  if interface_ready s then { cmds := [], ending := .ret B.BT_STATUS_DONE, state := s }
  else
    -- bt_hal_cbacks = callbacks; hal_ipc_register(...)
    let services := hal_ipc_register s.services L.HAL_SERVICE_ID_BLUETOOTH (ev_handlers L)
      (ev_handlers L).length
    let r := hal_ipc_init io.init s.ipc
    if !r.ret then
      { cmds := []
        ending := .ret B.BT_STATUS_FAIL
        state := { bt_hal_cbacks := none, services := services, ipc := r.state } }
    else
      let s1 : BtState := { bt_hal_cbacks := callbacks, services := services, ipc := r.state }
      let c1 := hal_ipc_cmd K { io.cmd1 with cmd_sk := s1.ipc.cmd_sk } B.HAL_SERVICE_ID_CORE
        B.HAL_OP_REGISTER_MODULE (toWord B.sizeof_cmd_register_module)
        [toByte L.HAL_SERVICE_ID_BLUETOOTH] none none none
      match c1.outcome with
      | .exit f => { cmds := [(s1.ipc.cmd_sk, c1)], ending := .exit f, state := s1 }
      | .ret r1 =>
        if r1.status ≠ K.BT_STATUS_SUCCESS then
          bt_teardown K L sizeof_enum io.received io.cb_set [(s1.ipc.cmd_sk, c1)]
            (.ret r1.status) s1
        else
          let c2 := hal_ipc_cmd K { io.cmd2 with cmd_sk := s1.ipc.cmd_sk } B.HAL_SERVICE_ID_CORE
            B.HAL_OP_REGISTER_MODULE (toWord B.sizeof_cmd_register_module)
            [B.HAL_SERVICE_ID_SOCK] none none none
          match c2.outcome with
          | .exit f =>
            { cmds := [(s1.ipc.cmd_sk, c1), (s1.ipc.cmd_sk, c2)], ending := .exit f, state := s1 }
          | .ret r2 =>
            if r2.status ≠ K.BT_STATUS_SUCCESS then
              bt_teardown K L sizeof_enum io.received io.cb_set
                [(s1.ipc.cmd_sk, c1), (s1.ipc.cmd_sk, c2)] (.ret r2.status) s1
            else
              { cmds := [(s1.ipc.cmd_sk, c1), (s1.ipc.cmd_sk, c2)]
                ending := .ret r2.status
                state := s1 }

/-- Embedding of `cleanup`. -/
def bt_cleanup (K : HalConsts) (L : HalLayout) (sizeof_enum : Nat)
    (received : List NotifEvent) (cb_set : Bool) (s : BtState) : BtRun :=
  if !interface_ready s then { cmds := [], ending := .done, state := s }
  else bt_teardown K L sizeof_enum received cb_set [] .done s

/-- The command wrappers whose marshalling cannot fail (`enable`, `disable`,
`get_adapter_properties`, `get_adapter_property`, `start_discovery`,
`create_bond`, `pin_reply`, `dut_mode_send`, ...): after the readiness test
they fill a command structure and return
`hal_ipc_cmd(HAL_SERVICE_ID_BLUETOOTH, opcode, len, param, 0, NULL, NULL)`. -/
def bt_command (K : HalConsts) (L : HalLayout) (B : BtConsts) (io : CmdEnv) (opcode : Byte)
    (len : Word) (param : List Byte) (s : BtState) : BtRun :=
  if !interface_ready s then { cmds := [], ending := .ret B.BT_STATUS_NOT_READY, state := s }
  else
    let c := hal_ipc_cmd K { io with cmd_sk := s.ipc.cmd_sk } (toByte L.HAL_SERVICE_ID_BLUETOOTH)
      opcode len param none none none
    { cmds := [(s.ipc.cmd_sk, c)]
      ending := match c.outcome with
                | .exit f => .exit f
                | .ret r => .ret r.status
      state := s }

/-- Embedding of `adapter_prop_from_hal`: the type, length and value bytes it
stores in the command, or the fatal exit of `enum_prop_from_hal` when a scan
mode property does not have the size of the enum. -/
def adapter_prop_from_hal (L : HalLayout) (sizeof_enum : Nat) (property : SendProp) :
    Except Fault (Nat × Nat × List Byte) :=
  if property.type = L.HAL_PROP_ADAPTER_SCAN_MODE then
    if property.len ≠ sizeof_enum then .error .invalid_hal_property
    else .ok (property.type % 256, 1, [property.val.getD 0 0])
  else .ok (property.type % 256, property.len % 65536, property.val.take property.len)

/-- Embedding of `set_adapter_property`; the command structure is laid out
as `type`, 16-bit little-endian `len`, `val`. -/
def bt_set_adapter_property (K : HalConsts) (L : HalLayout) (B : BtConsts) (sizeof_enum : Nat)
    (io : CmdEnv) (property : SendProp) (s : BtState) : BtRun :=
  if !interface_ready s then { cmds := [], ending := .ret B.BT_STATUS_NOT_READY, state := s }
  else
    match adapter_prop_from_hal L sizeof_enum property with
    | .error f => { cmds := [], ending := .exit f, state := s }
    | .ok (type, len, val) =>
      let c := hal_ipc_cmd K { io with cmd_sk := s.ipc.cmd_sk }
        (toByte L.HAL_SERVICE_ID_BLUETOOTH) B.HAL_OP_SET_ADAPTER_PROP
        (toWord (B.sizeof_cmd_set_adapter_prop + len))
        (toByte type :: toByte len :: toByte (len / 256) :: val) none none none
      { cmds := [(s.ipc.cmd_sk, c)]
        ending := match c.outcome with
                  | .exit f => .exit f
                  | .ret r => .ret r.status
        state := s }

/-- A call of one of the interface operations, with what the system does
during it. -/
inductive BtOp
  | init (io : InitIo) (callbacks : Option Nat)
  | cleanup (received : List NotifEvent) (cb_set : Bool)
  | command (io : CmdEnv) (opcode : Byte) (len : Word) (param : List Byte)
  | set_adapter_property (io : CmdEnv) (property : SendProp)

/-- The run of an interface operation from a state. -/
def bt_step (K : HalConsts) (L : HalLayout) (B : BtConsts) (sizeof_enum : Nat) :
    BtOp → BtState → BtRun
  | .init io callbacks, s => bt_init K L B sizeof_enum io callbacks s
  | .cleanup received cb_set, s => bt_cleanup K L sizeof_enum received cb_set s
  | .command io opcode len param, s => bt_command K L B io opcode len param s
  | .set_adapter_property io property, s =>
    bt_set_adapter_property K L B sizeof_enum io property s

/-- The states reachable from the initial state through interface operations
that come back to their caller. -/
inductive Reachable (K : HalConsts) (L : HalLayout) (B : BtConsts) (sizeof_enum : Nat) :
    BtState → Prop
  | initial : Reachable K L B sizeof_enum bt_initial
  | step (s : BtState) (op : BtOp) :
    Reachable K L B sizeof_enum s →
    (bt_step K L B sizeof_enum op s).ending.returns = true →
    Reachable K L B sizeof_enum (bt_step K L B sizeof_enum op s).state

/-- The invariant of the interface: a ready interface has a connected command
socket. -/
def bt_inv (s : BtState) : Prop := interface_ready s = true → 0 ≤ s.ipc.cmd_sk

/-! ## Concrete inputs -/

/-- A fixed-length descriptor expecting 4 bytes; the callback is named `7`. -/
def desc1 : hal_ipc_handler Nat := { handler := 7, var_len := false, data_len := 4 }

/-- Service 1 registered with the single descriptor `desc1`. -/
def svc1 : Services Nat := hal_ipc_register (services_init Nat) 1 [desc1] 1

/-- Notification frame `service_id = 1`, `opcode = HAL_MINIMUM_EVENT + 0`,
`payload_length = 4`, followed by four payload bytes. -/
def frame1 : List Byte := [1, 0x81, 4, 0, 10, 20, 30, 40]

/-- A handshake in which the listening socket is 3, the first connection
arrives as descriptor 4 and the second one times out. -/
def one_connection : InitEnv :=
  { socket := 3, bind := 0, listen := 0, property_set := 0, poll1 := 1, accept1 := 4,
    poll2 := 0, accept2 := -1, pthread_create := 0, thread := 0 }

/-- A handshake in which both connections arrive (descriptors 4 and 5) and
`pthread_create` fails with `EAGAIN` (11), leaving `notif_th` as it was. -/
def thread_failure : InitEnv :=
  { socket := 3, bind := 0, listen := 0, property_set := 0, poll1 := 1, accept1 := 4,
    poll2 := 1, accept2 := 5, pthread_create := 11, thread := 0 }

/-- Adapter properties event of service 1 (opcode `0x82`) with a 5-byte
payload: status 0, one property of type `HAL_PROP_ADAPTER_TYPE` with declared
value length 0. -/
def enum_frame : List Byte := [1, 0x82, 5, 0, 0, 1, 5, 0, 0]

/-- Adapter properties event of service 1 with a 5-byte payload that declares
two properties and holds one, of type 1 with value length 0. -/
def two_props_frame : List Byte := [1, 0x82, 5, 0, 0, 2, 1, 0, 0]

/-- An `init` whose `socket()` call fails. -/
def init_no_socket : InitIo :=
  { init := { socket := -1, bind := 0, listen := 0, property_set := 0, poll1 := 0, accept1 := -1,
              poll2 := 0, accept2 := -1, pthread_create := 0, thread := 0 }
    cmd1 := answering [], cmd2 := answering [], received := [], cb_set := true }

/-- An `init` whose handshake succeeds (sockets 4 and 5, thread 9) and whose
first registration command is answered by a status reply carrying the failure
code 1. -/
def init_register_refused : InitIo :=
  { init := { socket := 3, bind := 0, listen := 0, property_set := 0, poll1 := 1, accept1 := 4,
              poll2 := 1, accept2 := 5, pthread_create := 0, thread := 9 }
    cmd1 := answering [0, 0, 1, 0, 1], cmd2 := answering [], received := [], cb_set := true }

/-- An `init` whose handshake succeeds and whose two registration commands
are answered with their own opcode and an empty payload. -/
def init_ok : InitIo :=
  { init := { socket := 3, bind := 0, listen := 0, property_set := 0, poll1 := 1, accept1 := 4,
              poll2 := 1, accept2 := 5, pthread_create := 0, thread := 9 }
    cmd1 := answering [0, 1, 0, 0], cmd2 := answering [0, 1, 0, 0], received := []
    cb_set := true }

/-- A scan mode property whose length is 0 instead of the size of the enum. -/
def bad_scan_mode : SendProp := { type := 7, len := 0, val := [] }

/-- The state after a successful `init` from the initial state. -/
def ready_state : BtState :=
  (bt_step bluez bluez_layout bluez_bt 4 (.init init_ok (some 1)) bt_initial).state

/-! ## Dispatcher: helper lemmas -/

theorem byteAt_lt (buf : List Byte) (i : Nat) : byteAt buf i < 256 := by
  unfold byteAt
  exact (buf.getD i 0).isLt

theorem hdr_opcode_lt (buf : List Byte) : hdr_opcode buf < 256 := byteAt_lt buf 1

theorem hdr_len_lt (buf : List Byte) : hdr_len buf < 65536 := by
  unfold hdr_len
  have h2 := byteAt_lt buf 2
  have h3 := byteAt_lt buf 3
  omega

/-- Once `opcode >= HAL_MINIMUM_EVENT` holds, the 8-bit subtraction is the
plain difference. -/
theorem adjusted_opcode_eq (K : HalConsts) (buf : List Byte)
    (hmin : K.HAL_MINIMUM_EVENT ≤ hdr_opcode buf) :
    adjusted_opcode K buf = hdr_opcode buf - K.HAL_MINIMUM_EVENT := by
  unfold adjusted_opcode
  have hlt := hdr_opcode_lt buf
  omega

/-- The dispatcher after all checks that precede the size check. -/
theorem handle_msg_resolved {H : Type} (K : HalConsts) (services : Services H)
    (buf : List Byte) (len : Int) (table : List (hal_ipc_handler H)) (d : hal_ipc_handler H)
    (hlen : len = ((HDR_SIZE + hdr_len buf : Nat) : Int))
    (hsvc : hdr_service_id buf ≤ K.HAL_SERVICE_ID_MAX)
    (hreg : (services (hdr_service_id buf)).handler = some table)
    (hmin : K.HAL_MINIMUM_EVENT ≤ hdr_opcode buf)
    (hrange : hdr_opcode buf - K.HAL_MINIMUM_EVENT < (services (hdr_service_id buf)).size)
    (hd : table[hdr_opcode buf - K.HAL_MINIMUM_EVENT]? = some d) :
    handle_msg K services buf len =
      if (d.var_len && decide (d.data_len > hdr_len buf)) ||
          (!d.var_len && decide (d.data_len ≠ hdr_len buf)) then
        Run.abort .message_size_invalid
      else
        { calls := [{ handler := d.handler, payload := hdr_payload buf (hdr_len buf),
                      len := hdr_len buf }],
          status := .returned } := by
  have hadj := adjusted_opcode_eq K buf hmin
  have h1 : ¬ len < (HDR_SIZE : Int) := by
    rw [hlen]; push_cast; omega
  have h3 : ¬ hdr_service_id buf > K.HAL_SERVICE_ID_MAX := by omega
  have h4 : ¬ hdr_opcode buf < K.HAL_MINIMUM_EVENT := by omega
  have h5 : ¬ hdr_opcode buf - K.HAL_MINIMUM_EVENT ≥ (services (hdr_service_id buf)).size := by
    omega
  unfold handle_msg
  rw [if_neg h1, if_neg (by simpa using hlen), if_neg h3]
  simp only [hreg, if_neg h4, hadj, if_neg h5, hd]

theorem Run.abort_fatal {H : Type} (f : Fault) : (Run.abort f : Run H).fatal :=
  ⟨rfl, f, rfl⟩

/-! ## Command channel: helper lemmas -/

theorem byteAt_take (data : List Byte) (n i : Nat) (h : i < n) :
    byteAt (data.take n) i = byteAt data i := by
  unfold byteAt
  rw [List.getD_eq_getElem?_getD, List.getD_eq_getElem?_getD, List.getElem?_take_of_lt h]

theorem recv_cmd_service_id (data : List Byte) :
    hdr_service_id (recv_cmd data) = hdr_service_id data :=
  byteAt_take data 4 0 (by decide)

theorem recv_cmd_opcode (data : List Byte) : hdr_opcode (recv_cmd data) = hdr_opcode data :=
  byteAt_take data 4 1 (by decide)

theorem recv_cmd_len (data : List Byte) : hdr_len (recv_cmd data) = hdr_len data := by
  unfold hdr_len recv_cmd HDR_SIZE
  rw [byteAt_take data 4 2 (by decide), byteAt_take data 4 3 (by decide)]

/-- The outcome of a call on a connected socket whose send succeeded and
whose receive delivered `reply`: the checks on the reply, in source order. -/
theorem hal_ipc_cmd_outcome_of_reply (K : HalConsts) (env : CmdEnv) (service_id opcode : Byte)
    (len : Word) (param : List Byte) (rsp_len : Option Nat) (rsp : Option (List Byte))
    (fd : Option Int) (reply : Reply)
    (hsk : 0 ≤ env.cmd_sk) (hsend : 0 < env.sendmsg_ret) (hrecv : env.recvmsg = some reply) :
    (hal_ipc_cmd K env service_id opcode len param rsp_len rsp fd).outcome =
      if recv_ret reply.data (rsp_capacity rsp_len rsp) < (HDR_SIZE : Int) then
        .exit .response_too_small
      else if hdr_service_id reply.data ≠ service_id.val then .exit .invalid_service_id
      else if recv_ret reply.data (rsp_capacity rsp_len rsp)
          ≠ ((HDR_SIZE + hdr_len reply.data : Nat) : Int) then .exit .response_malformed
      else if hdr_opcode reply.data ≠ opcode.val ∧ hdr_opcode reply.data ≠ K.HAL_OP_STATUS then
        .exit .invalid_opcode_received
      else if hdr_opcode reply.data = K.HAL_OP_STATUS then
        if STATUS_SIZE ≠ hdr_len reply.data then .exit .invalid_status_length
        else if byteAt (recv_rsp reply.data (rsp_capacity rsp_len rsp)
            (rsp_initial rsp_len rsp)) 0 = K.HAL_STATUS_SUCCESS then
          .exit .invalid_success_status
        else
          .ret { status := (byteAt (recv_rsp reply.data (rsp_capacity rsp_len rsp)
                              (rsp_initial rsp_len rsp)) 0 : Int)
                 rsp_len := rsp_len
                 rsp := if own_status rsp_len rsp then rsp
                        else some (recv_rsp reply.data (rsp_capacity rsp_len rsp)
                                    (rsp_initial rsp_len rsp))
                 fd := fd }
      else
        .ret { status := K.BT_STATUS_SUCCESS
               rsp_len := if own_status rsp_len rsp then rsp_len
                          else some (hdr_len reply.data)
               rsp := if own_status rsp_len rsp then rsp
                      else some (recv_rsp reply.data (rsp_capacity rsp_len rsp)
                                  (rsp_initial rsp_len rsp))
               fd := fd.map (fun _ => scm_rights_fd (recv_control reply.control)) } := by
  have h1 : ¬ env.cmd_sk < 0 := by omega
  have h2 : ¬ env.sendmsg_ret < 0 := by omega
  have h3 : ¬ env.sendmsg_ret = 0 := by omega
  unfold hal_ipc_cmd
  rw [if_neg h1]
  simp only [if_neg h2, if_neg h3, hrecv, recv_cmd_service_id, recv_cmd_opcode, recv_cmd_len]
  repeat' split
  all_goals rfl

/-- Without a received record the call never returns. -/
theorem hal_ipc_cmd_exit_of_no_reply (K : HalConsts) (env : CmdEnv) (service_id opcode : Byte)
    (len : Word) (param : List Byte) (rsp_len : Option Nat) (rsp : Option (List Byte))
    (fd : Option Int)
    (h : env.cmd_sk < 0 ∨ env.sendmsg_ret ≤ 0 ∨ env.recvmsg = none) :
    ∃ f, (hal_ipc_cmd K env service_id opcode len param rsp_len rsp fd).outcome = .exit f := by
  unfold hal_ipc_cmd
  by_cases h1 : env.cmd_sk < 0
  · exact ⟨.invalid_cmd_socket, by rw [if_pos h1]⟩
  rw [if_neg h1]
  by_cases h2 : env.sendmsg_ret < 0
  · exact ⟨.sending_failed, by simp only [if_pos h2]⟩
  by_cases h3 : env.sendmsg_ret = 0
  · exact ⟨.command_socket_closed, by simp only [if_neg h2, if_pos h3]⟩
  have h4 : env.recvmsg = none := by
    rcases h with h | h | h
    · exact absurd h h1
    · omega
    · exact h
  exact ⟨.receiving_failed, by simp only [if_neg h2, if_neg h3, h4]⟩

/-- A record no longer than the receive capacity is stored whole. -/
theorem recv_ret_of_fits (data : List Byte) (cap k : Nat) (hlen : data.length = 4 + k)
    (hk : k ≤ cap) : recv_ret data cap = ((4 + k : Nat) : Int) := by
  unfold recv_ret HDR_SIZE
  congr 1
  omega

/-- A payload no longer than the receive capacity overwrites the start of
the reply buffer and nothing else. -/
theorem recv_rsp_of_fits (data : List Byte) (cap k : Nat) (rsp : List Byte)
    (hlen : data.length = 4 + k) (hk : k ≤ cap) :
    recv_rsp data cap rsp = data.drop 4 ++ rsp.drop k := by
  unfold recv_rsp HDR_SIZE
  have htake : (data.drop 4).take cap = data.drop 4 := by
    apply List.take_of_length_le
    rw [List.length_drop]
    omega
  rw [htake, List.length_drop, hlen]
  simp

/-- With room for at least one byte, the first byte of the reply buffer after
the receive is the first payload byte of the record. -/
theorem recv_rsp_first (data : List Byte) (cap : Nat) (rsp : List Byte)
    (hcap : 1 ≤ cap) (hlen : 4 < data.length) :
    byteAt (recv_rsp data cap rsp) 0 = byteAt data 4 := by
  unfold byteAt recv_rsp HDR_SIZE
  rw [List.getD_eq_getElem?_getD, List.getD_eq_getElem?_getD]
  rw [List.getElem?_append_left (by simp; omega)]
  rw [List.getElem?_take_of_lt (by omega)]
  simp

/-- A well-formed status reply met with room for its single byte is returned
as the call's result. -/
theorem hal_ipc_cmd_status_reply (K : HalConsts) (env : CmdEnv) (service_id opcode : Byte)
    (len : Word) (param : List Byte) (rsp_len : Option Nat) (rsp : Option (List Byte))
    (fd : Option Int) (reply : Reply)
    (hsk : 0 ≤ env.cmd_sk) (hsend : 0 < env.sendmsg_ret) (hrecv : env.recvmsg = some reply)
    (hcap : 1 ≤ rsp_capacity rsp_len rsp)
    (hsize : reply.data.length = 5)
    (hsid : hdr_service_id reply.data = service_id.val)
    (hop : hdr_opcode reply.data = K.HAL_OP_STATUS)
    (hlen : hdr_len reply.data = 1)
    (hcode : byteAt reply.data 4 ≠ K.HAL_STATUS_SUCCESS) :
    (hal_ipc_cmd K env service_id opcode len param rsp_len rsp fd).outcome =
      .ret { status := (byteAt reply.data 4 : Int)
             rsp_len := rsp_len
             rsp := if own_status rsp_len rsp then rsp
                    else some (recv_rsp reply.data (rsp_capacity rsp_len rsp)
                                (rsp_initial rsp_len rsp))
             fd := fd } := by
  rw [hal_ipc_cmd_outcome_of_reply K env service_id opcode len param rsp_len rsp fd reply
    hsk hsend hrecv]
  have hret := recv_ret_of_fits reply.data (rsp_capacity rsp_len rsp) 1 hsize hcap
  have hfirst := recv_rsp_first reply.data (rsp_capacity rsp_len rsp)
    (rsp_initial rsp_len rsp) hcap (by omega)
  rw [hret, hfirst, hlen]
  simp [HDR_SIZE, STATUS_SIZE, hsid, hop, hcode]

/-- Whenever the call returns, the reply came from the request's service,
its declared payload length was within the receive capacity, and its opcode
was the request's or the status opcode. -/
theorem hal_ipc_cmd_ret_inv (K : HalConsts) (env : CmdEnv) (service_id opcode : Byte)
    (len : Word) (param : List Byte) (rsp_len : Option Nat) (rsp : Option (List Byte))
    (fd : Option Int) (reply : Reply) (r : CmdResult)
    (hrecv : env.recvmsg = some reply)
    (hret : (hal_ipc_cmd K env service_id opcode len param rsp_len rsp fd).outcome = .ret r) :
    hdr_service_id reply.data = service_id.val
    ∧ recv_ret reply.data (rsp_capacity rsp_len rsp) = ((4 + hdr_len reply.data : Nat) : Int)
    ∧ (hdr_opcode reply.data = opcode.val ∨ hdr_opcode reply.data = K.HAL_OP_STATUS) := by
  by_cases hlive : 0 ≤ env.cmd_sk ∧ 0 < env.sendmsg_ret
  · rw [hal_ipc_cmd_outcome_of_reply K env service_id opcode len param rsp_len rsp fd reply
      hlive.1 hlive.2 hrecv] at hret
    by_cases h1 : recv_ret reply.data (rsp_capacity rsp_len rsp) < (HDR_SIZE : Int)
    · rw [if_pos h1] at hret; cases hret
    rw [if_neg h1] at hret
    by_cases h2 : hdr_service_id reply.data ≠ service_id.val
    · rw [if_pos h2] at hret; cases hret
    rw [if_neg h2] at hret
    by_cases h3 : recv_ret reply.data (rsp_capacity rsp_len rsp)
        ≠ ((HDR_SIZE + hdr_len reply.data : Nat) : Int)
    · rw [if_pos h3] at hret; cases hret
    rw [if_neg h3] at hret
    by_cases h4 : hdr_opcode reply.data ≠ opcode.val ∧ hdr_opcode reply.data ≠ K.HAL_OP_STATUS
    · rw [if_pos h4] at hret; cases hret
    refine ⟨not_not.mp h2, not_not.mp h3, ?_⟩
    by_contra hne
    exact h4 ⟨fun h => hne (Or.inl h), fun h => hne (Or.inr h)⟩
  · obtain ⟨f, hf⟩ := hal_ipc_cmd_exit_of_no_reply K env service_id opcode len param rsp_len rsp
      fd (by
        by_cases hsk : env.cmd_sk < 0
        · exact Or.inl hsk
        · exact Or.inr (Or.inl (by
            have : ¬ 0 < env.sendmsg_ret := fun h => hlive ⟨by omega, h⟩
            omega)))
    rw [hf] at hret
    cases hret

/-- The receive reports `4 + k` bytes exactly when the record carries `k`
payload bytes that fit, or carries more than the capacity `k`. -/
theorem recv_ret_eq_iff (data : List Byte) (cap k : Nat) :
    recv_ret data cap = ((4 + k : Nat) : Int)
      ↔ (data.length = 4 + k ∧ k ≤ cap) ∨ (k = cap ∧ 4 + cap < data.length) := by
  unfold recv_ret HDR_SIZE
  constructor
  · intro h
    have h' : min data.length (4 + cap) = 4 + k := by exact_mod_cast h
    omega
  · intro h
    have h' : min data.length (4 + cap) = 4 + k := by omega
    exact_mod_cast h'

/-- C1: a frame that passes header validation and addresses a registered
service with an in-range adjusted opcode is dispatched to the handler exactly
when its payload length equals `data_len` (fixed-length descriptor) or is at
least `data_len` (variable-length descriptor); otherwise it is a fatal size
violation and no handler runs. -/
theorem handle_msg_dispatch_iff_len_ok {H : Type} (K : HalConsts) (services : Services H)
    (buf : List Byte) (len : Int) (table : List (hal_ipc_handler H)) (d : hal_ipc_handler H)
    (hlen : len = ((HDR_SIZE + hdr_len buf : Nat) : Int))
    (hsvc : hdr_service_id buf ≤ K.HAL_SERVICE_ID_MAX)
    (hreg : (services (hdr_service_id buf)).handler = some table)
    (hmin : K.HAL_MINIMUM_EVENT ≤ hdr_opcode buf)
    (hrange : hdr_opcode buf - K.HAL_MINIMUM_EVENT < (services (hdr_service_id buf)).size)
    (hd : table[hdr_opcode buf - K.HAL_MINIMUM_EVENT]? = some d) :
    (handle_msg K services buf len
        = { calls := [{ handler := d.handler, payload := hdr_payload buf (hdr_len buf),
                        len := hdr_len buf }],
            status := .returned }
      ↔ (if d.var_len = true then d.data_len ≤ hdr_len buf else hdr_len buf = d.data_len))
    ∧ (¬ (if d.var_len = true then d.data_len ≤ hdr_len buf else hdr_len buf = d.data_len)
        → handle_msg K services buf len = Run.abort .message_size_invalid) := by
  rw [handle_msg_resolved K services buf len table d hlen hsvc hreg hmin hrange hd]
  cases hv : d.var_len
  · by_cases he : hdr_len buf = d.data_len
    · have : ¬ d.data_len ≠ hdr_len buf := by omega
      simp [he]
    · have : d.data_len ≠ hdr_len buf := by omega
      simp [he, this, Run.abort]
  · by_cases he : d.data_len ≤ hdr_len buf
    · have : ¬ d.data_len > hdr_len buf := by omega
      simp [he]
    · have : d.data_len > hdr_len buf := by omega
      simp [this, Run.abort]

/-- C1 at a concrete frame: service 1, opcode `HAL_MINIMUM_EVENT + 0`, four
payload bytes against a fixed-length descriptor of four bytes. -/
theorem handle_msg_dispatch_iff_len_ok_witness :
    ((8 : Int) = ((HDR_SIZE + hdr_len frame1 : Nat) : Int)
      ∧ hdr_service_id frame1 ≤ bluez.HAL_SERVICE_ID_MAX
      ∧ (svc1 (hdr_service_id frame1)).handler = some [desc1]
      ∧ bluez.HAL_MINIMUM_EVENT ≤ hdr_opcode frame1
      ∧ hdr_opcode frame1 - bluez.HAL_MINIMUM_EVENT < (svc1 (hdr_service_id frame1)).size
      ∧ [desc1][hdr_opcode frame1 - bluez.HAL_MINIMUM_EVENT]? = some desc1)
    ∧ ((handle_msg bluez svc1 frame1 8
          = { calls := [{ handler := desc1.handler, payload := hdr_payload frame1 (hdr_len frame1),
                          len := hdr_len frame1 }],
              status := .returned }
        ↔ (if desc1.var_len = true then desc1.data_len ≤ hdr_len frame1
            else hdr_len frame1 = desc1.data_len))
      ∧ (¬ (if desc1.var_len = true then desc1.data_len ≤ hdr_len frame1
            else hdr_len frame1 = desc1.data_len)
          → handle_msg bluez svc1 frame1 8 = Run.abort .message_size_invalid)) :=
  ⟨⟨by decide, by decide, by decide, by decide, by decide, by decide⟩,
    handle_msg_dispatch_iff_len_ok bluez svc1 frame1 8 [desc1] desc1
      (by decide) (by decide) (by decide) (by decide) (by decide) (by decide)⟩

/-- C2: a buffer is rejected as a fatal violation, with no handler invoked,
whenever `len` is below the header size, or `len` differs from the header size
plus the declared payload length, or the service id exceeds
`HAL_SERVICE_ID_MAX`, or the opcode is below `HAL_MINIMUM_EVENT`. -/
theorem handle_msg_rejects_bad_framing {H : Type} (K : HalConsts) (services : Services H)
    (buf : List Byte) (len : Int)
    (h : len < (HDR_SIZE : Int) ∨ len ≠ ((HDR_SIZE + hdr_len buf : Nat) : Int)
          ∨ hdr_service_id buf > K.HAL_SERVICE_ID_MAX
          ∨ hdr_opcode buf < K.HAL_MINIMUM_EVENT) :
    (handle_msg K services buf len).fatal := by
  unfold handle_msg
  by_cases h1 : len < (HDR_SIZE : Int)
  · rw [if_pos h1]; exact Run.abort_fatal _
  rw [if_neg h1]
  by_cases h2 : len ≠ ((HDR_SIZE + hdr_len buf : Nat) : Int)
  · rw [if_pos h2]; exact Run.abort_fatal _
  rw [if_neg h2]
  by_cases h3 : hdr_service_id buf > K.HAL_SERVICE_ID_MAX
  · rw [if_pos h3]; exact Run.abort_fatal _
  rw [if_neg h3]
  have h4 : hdr_opcode buf < K.HAL_MINIMUM_EVENT := by
    rcases h with h | h | h | h
    · exact absurd h h1
    · exact absurd h h2
    · exact absurd h h3
    · exact h
  cases hreg : (services (hdr_service_id buf)).handler with
  | none => exact Run.abort_fatal _
  | some table =>
    simp only [if_pos h4]
    exact Run.abort_fatal _

/-- C2 at a concrete buffer: three bytes only. -/
theorem handle_msg_rejects_bad_framing_witness :
    ((3 : Int) < (HDR_SIZE : Int) ∨ (3 : Int) ≠ ((HDR_SIZE + hdr_len [1, 0x81, 0] : Nat) : Int)
        ∨ hdr_service_id [1, 0x81, 0] > bluez.HAL_SERVICE_ID_MAX
        ∨ hdr_opcode [1, 0x81, 0] < bluez.HAL_MINIMUM_EVENT)
    ∧ (handle_msg bluez svc1 [1, 0x81, 0] 3).fatal :=
  ⟨Or.inl (by decide),
    handle_msg_rejects_bad_framing bluez svc1 [1, 0x81, 0] 3 (Or.inl (by decide))⟩

/-- C3: the dispatcher fails (fatal, no handler invoked) for every frame whose
service slot has no registered handler table, and for every frame whose
adjusted opcode (the 8-bit value of `opcode - HAL_MINIMUM_EVENT`) is greater
than or equal to the size registered for that service. -/
theorem handle_msg_unresolved_fatal {H : Type} (K : HalConsts) (services : Services H)
    (buf : List Byte) (len : Int) :
    ((services (hdr_service_id buf)).handler = none → (handle_msg K services buf len).fatal)
    ∧ ((services (hdr_service_id buf)).size ≤ adjusted_opcode K buf
        → (handle_msg K services buf len).fatal) := by
  constructor
  · intro hnone
    unfold handle_msg
    split
    · exact Run.abort_fatal _
    split
    · exact Run.abort_fatal _
    split
    · exact Run.abort_fatal _
    simp only [hnone]
    exact Run.abort_fatal _
  · intro hsize
    unfold handle_msg
    split
    · exact Run.abort_fatal _
    split
    · exact Run.abort_fatal _
    split
    · exact Run.abort_fatal _
    cases hreg : (services (hdr_service_id buf)).handler with
    | none => exact Run.abort_fatal _
    | some table =>
      simp only []
      by_cases h4 : hdr_opcode buf < K.HAL_MINIMUM_EVENT
      · rw [if_pos h4]; exact Run.abort_fatal _
      · rw [if_neg h4, if_pos hsize]; exact Run.abort_fatal _

/-- C4: every frame that the dispatcher accepts invokes exactly one handler
exactly once: the entry at index `opcode - HAL_MINIMUM_EVENT` of the table
registered for the frame's service, with the bytes after the 4-byte header as
payload and the header's payload length as length. -/
theorem handle_msg_accept_invokes_once {H : Type} (K : HalConsts) (services : Services H)
    (buf : List Byte) (len : Int)
    (hacc : (handle_msg K services buf len).status = .returned) :
    ∃ table d,
      (services (hdr_service_id buf)).handler = some table
      ∧ K.HAL_MINIMUM_EVENT ≤ hdr_opcode buf
      ∧ table[hdr_opcode buf - K.HAL_MINIMUM_EVENT]? = some d
      ∧ (handle_msg K services buf len).calls
          = [{ handler := d.handler, payload := (buf.drop 4).take (hdr_len buf),
               len := hdr_len buf }]
      ∧ len = 4 + (hdr_len buf : Int)
      ∧ ((buf.length : Int) = len → (buf.drop 4).take (hdr_len buf) = buf.drop 4) := by
  unfold handle_msg at hacc ⊢
  by_cases h1 : len < (HDR_SIZE : Int)
  · rw [if_pos h1] at hacc; simp [Run.abort] at hacc
  rw [if_neg h1] at hacc ⊢
  by_cases h2 : len ≠ ((HDR_SIZE + hdr_len buf : Nat) : Int)
  · rw [if_pos h2] at hacc; simp [Run.abort] at hacc
  rw [if_neg h2] at hacc ⊢
  by_cases h3 : hdr_service_id buf > K.HAL_SERVICE_ID_MAX
  · rw [if_pos h3] at hacc; simp [Run.abort] at hacc
  rw [if_neg h3] at hacc ⊢
  cases hreg : (services (hdr_service_id buf)).handler with
  | none => rw [hreg] at hacc; simp [Run.abort] at hacc
  | some table =>
    rw [hreg] at hacc
    simp only [] at hacc ⊢
    by_cases h4 : hdr_opcode buf < K.HAL_MINIMUM_EVENT
    · rw [if_pos h4] at hacc; simp [Run.abort] at hacc
    rw [if_neg h4] at hacc ⊢
    have hmin : K.HAL_MINIMUM_EVENT ≤ hdr_opcode buf := by omega
    have hadj := adjusted_opcode_eq K buf hmin
    by_cases h5 : adjusted_opcode K buf ≥ (services (hdr_service_id buf)).size
    · rw [if_pos h5] at hacc; simp [Run.abort] at hacc
    rw [if_neg h5] at hacc ⊢
    cases hd : table[adjusted_opcode K buf]? with
    | none => rw [hd] at hacc; simp at hacc
    | some d =>
      rw [hd] at hacc
      simp only [] at hacc ⊢
      split at hacc
      · simp [Run.abort] at hacc
      · rename_i hsz
        rw [if_neg hsz]
        have hlen : len = 4 + (hdr_len buf : Int) := by
          have := not_not.mp h2
          rw [this]; simp [HDR_SIZE]
        refine ⟨table, d, rfl, hmin, ?_, rfl, hlen, ?_⟩
        · rw [← hadj]; exact hd
        · intro hbl
          apply List.take_of_length_le
          rw [List.length_drop]
          omega

/-- C4 at the concrete frame of the end-to-end scenario: service 1 registered
with one fixed-length 4-byte handler, `service_id = 1`, `opcode = threshold + 0`,
four payload bytes. -/
theorem handle_msg_accept_invokes_once_witness :
    (handle_msg bluez svc1 frame1 8).status = .returned
    ∧ ∃ table d,
      (svc1 (hdr_service_id frame1)).handler = some table
      ∧ bluez.HAL_MINIMUM_EVENT ≤ hdr_opcode frame1
      ∧ table[hdr_opcode frame1 - bluez.HAL_MINIMUM_EVENT]? = some d
      ∧ (handle_msg bluez svc1 frame1 8).calls
          = [{ handler := d.handler, payload := (frame1.drop 4).take (hdr_len frame1),
               len := hdr_len frame1 }]
      ∧ (8 : Int) = 4 + (hdr_len frame1 : Int)
      ∧ ((frame1.length : Int) = 8 → (frame1.drop 4).take (hdr_len frame1) = frame1.drop 4) :=
  ⟨by decide, handle_msg_accept_invokes_once bluez svc1 frame1 8 (by decide)⟩

/-- C3 at two concrete frames: one addressed to the unregistered service 2,
one addressed to service 1 with adjusted opcode 1 against a table of size 1. -/
theorem handle_msg_unresolved_fatal_witness :
    ((svc1 (hdr_service_id [2, 0x81, 0, 0])).handler = none
      ∧ (handle_msg bluez svc1 [2, 0x81, 0, 0] 4).fatal)
    ∧ ((svc1 (hdr_service_id [1, 0x82, 0, 0])).size ≤ adjusted_opcode bluez [1, 0x82, 0, 0]
      ∧ (handle_msg bluez svc1 [1, 0x82, 0, 0] 4).fatal) :=
  ⟨⟨by decide, (handle_msg_unresolved_fatal bluez svc1 [2, 0x81, 0, 0] 4).1 (by decide)⟩,
    ⟨by decide, (handle_msg_unresolved_fatal bluez svc1 [1, 0x82, 0, 0] 4).2 (by decide)⟩⟩

/-! ## Command channel: theorems -/

/-- C5: a request issued with no reply buffer (`rsp` or `rsp_len` is `NULL`)
that is answered by a status-opcode frame of the request's service whose
one-byte payload is a non-success code `c` returns `c`; the caller's pointers
are left as they were. -/
theorem hal_ipc_cmd_status_without_buffer (K : HalConsts) (env : CmdEnv)
    (service_id opcode : Byte) (len : Word) (param : List Byte) (rsp_len : Option Nat)
    (rsp : Option (List Byte)) (fd : Option Int) (reply : Reply) (c : Byte)
    (hnobuf : rsp = none ∨ rsp_len = none)
    (hsk : 0 ≤ env.cmd_sk) (hsend : 0 < env.sendmsg_ret) (hrecv : env.recvmsg = some reply)
    (hsize : reply.data.length = 5)
    (hsid : hdr_service_id reply.data = service_id.val)
    (hop : hdr_opcode reply.data = K.HAL_OP_STATUS)
    (hlen : hdr_len reply.data = 1)
    (hc : byteAt reply.data 4 = c.val)
    (hcode : c.val ≠ K.HAL_STATUS_SUCCESS) :
    (hal_ipc_cmd K env service_id opcode len param rsp_len rsp fd).outcome =
      .ret { status := (c.val : Int), rsp_len := rsp_len, rsp := rsp, fd := fd } := by
  have hown : own_status rsp_len rsp = true := by
    rcases hnobuf with h | h <;> simp [own_status, h]
  have hcap : 1 ≤ rsp_capacity rsp_len rsp := by simp [rsp_capacity, hown, STATUS_SIZE]
  rw [hal_ipc_cmd_status_reply K env service_id opcode len param rsp_len rsp fd reply hsk hsend
    hrecv hcap hsize hsid hop hlen (by rw [hc]; exact hcode)]
  simp [hown, hc]

/-- C5 at the end-to-end scenario: `service_id = 2`, `opcode = 7`, no reply
buffer, status reply carrying `not_ready` (2). -/
theorem hal_ipc_cmd_status_without_buffer_witness :
    (hal_ipc_cmd bluez (answering [2, 0, 1, 0, 2]) 2 7 0 [] none none none).outcome =
      .ret { status := 2, rsp_len := none, rsp := none, fd := none } :=
  hal_ipc_cmd_status_without_buffer bluez (answering [2, 0, 1, 0, 2]) 2 7 0 [] none none none
    { data := [2, 0, 1, 0, 2], control := [] } 2
    (Or.inl rfl) (by decide) (by decide) rfl (by decide) (by decide) (by decide) (by decide)
    (by decide) (by decide)

/-- C6: a reply whose opcode differs from both the request opcode and the
status opcode never makes the call return: the run ends in `exit`, and when
the reply is otherwise acceptable the diagnostic is the invalid-opcode one. -/
theorem hal_ipc_cmd_foreign_opcode_fatal (K : HalConsts) (env : CmdEnv)
    (service_id opcode : Byte) (len : Word) (param : List Byte) (rsp_len : Option Nat)
    (rsp : Option (List Byte)) (fd : Option Int) (reply : Reply)
    (hrecv : env.recvmsg = some reply)
    (hop : hdr_opcode reply.data ≠ opcode.val)
    (hst : hdr_opcode reply.data ≠ K.HAL_OP_STATUS) :
    (∃ f, (hal_ipc_cmd K env service_id opcode len param rsp_len rsp fd).outcome = .exit f)
    ∧ (0 ≤ env.cmd_sk → 0 < env.sendmsg_ret
        → hdr_service_id reply.data = service_id.val
        → reply.data.length = 4 + hdr_len reply.data
        → hdr_len reply.data ≤ rsp_capacity rsp_len rsp
        → (hal_ipc_cmd K env service_id opcode len param rsp_len rsp fd).outcome
            = .exit .invalid_opcode_received) := by
  constructor
  · cases hout : (hal_ipc_cmd K env service_id opcode len param rsp_len rsp fd).outcome with
    | exit f => exact ⟨f, rfl⟩
    | ret r =>
      have hinv := hal_ipc_cmd_ret_inv K env service_id opcode len param rsp_len rsp fd reply r
        hrecv hout
      rcases hinv.2.2 with h | h
      · exact absurd h hop
      · exact absurd h hst
  · intro hsk hsend hsid hsize hfit
    rw [hal_ipc_cmd_outcome_of_reply K env service_id opcode len param rsp_len rsp fd reply
      hsk hsend hrecv]
    have hret := recv_ret_of_fits reply.data (rsp_capacity rsp_len rsp) (hdr_len reply.data)
      hsize hfit
    rw [hret]
    simp [HDR_SIZE, hsid, hop, hst]

/-- C6 at a concrete exchange: request opcode 7, reply opcode 9. -/
theorem hal_ipc_cmd_foreign_opcode_fatal_witness :
    (∃ f, (hal_ipc_cmd bluez (answering [2, 9, 0, 0]) 2 7 0 [] none none none).outcome = .exit f)
    ∧ ((0 : Int) ≤ (answering [2, 9, 0, 0]).cmd_sk → 0 < (answering [2, 9, 0, 0]).sendmsg_ret
        → hdr_service_id [2, 9, 0, 0] = (2 : Byte).val
        → ([2, 9, 0, 0] : List Byte).length = 4 + hdr_len [2, 9, 0, 0]
        → hdr_len [2, 9, 0, 0] ≤ rsp_capacity none none
        → (hal_ipc_cmd bluez (answering [2, 9, 0, 0]) 2 7 0 [] none none none).outcome
            = .exit .invalid_opcode_received) :=
  hal_ipc_cmd_foreign_opcode_fatal bluez (answering [2, 9, 0, 0]) 2 7 0 [] none none none
    { data := [2, 9, 0, 0], control := [] } rfl (by decide) (by decide)

/-- C8: with a reply buffer of capacity `n`, a reply that carries the
request's own opcode (not the status opcode), the request's service id and a
payload of `k ≤ n` bytes makes the call return success; the first `k` bytes of
the reply buffer are the reply payload, the rest of the buffer is untouched,
and `*rsp_len` is `k`. -/
theorem hal_ipc_cmd_reply_copied (K : HalConsts) (env : CmdEnv) (service_id opcode : Byte)
    (len : Word) (param : List Byte) (fd : Option Int) (reply : Reply) (buf0 : List Byte)
    (n k : Nat)
    (hsk : 0 ≤ env.cmd_sk) (hsend : 0 < env.sendmsg_ret) (hrecv : env.recvmsg = some reply)
    (hsid : hdr_service_id reply.data = service_id.val)
    (hop : hdr_opcode reply.data = opcode.val)
    (hnst : opcode.val ≠ K.HAL_OP_STATUS)
    (hk : hdr_len reply.data = k)
    (hsize : reply.data.length = 4 + k)
    (hkn : k ≤ n) :
    (hal_ipc_cmd K env service_id opcode len param (some n) (some buf0) fd).outcome =
      .ret { status := K.BT_STATUS_SUCCESS
             rsp_len := some k
             rsp := some (reply.data.drop 4 ++ buf0.drop k)
             fd := fd.map (fun _ => scm_rights_fd (recv_control reply.control)) }
    ∧ (reply.data.drop 4 ++ buf0.drop k).take k = reply.data.drop 4 := by
  have hown : own_status (some n) (some buf0) = false := rfl
  have hcap : rsp_capacity (some n) (some buf0) = n := rfl
  have hini : rsp_initial (some n) (some buf0) = buf0 := rfl
  constructor
  · rw [hal_ipc_cmd_outcome_of_reply K env service_id opcode len param (some n) (some buf0) fd
      reply hsk hsend hrecv, hcap, hini, hown]
    rw [recv_ret_of_fits reply.data n k hsize hkn, recv_rsp_of_fits reply.data n k buf0 hsize hkn,
      hk]
    have hk0 : ¬ ((k : Int) < 0) := by omega
    simp [HDR_SIZE, hsid, hop, hnst, hk0]
  · have hl : (reply.data.drop 4).length = k := by rw [List.length_drop]; omega
    rw [List.take_append_of_le_length (by omega)]
    exact List.take_of_length_le (by omega)

/-- C8 at a concrete exchange: capacity 4, reply with a 2-byte payload. -/
theorem hal_ipc_cmd_reply_copied_witness :
    (hal_ipc_cmd bluez (answering [2, 7, 2, 0, 9, 8]) 2 7 0 [] (some 4) (some [1, 1, 1, 1])
        none).outcome =
      .ret { status := 0, rsp_len := some 2, rsp := some [9, 8, 1, 1], fd := none }
    ∧ ([9, 8, 1, 1] : List Byte).take 2 = [9, 8] :=
  hal_ipc_cmd_reply_copied bluez (answering [2, 7, 2, 0, 9, 8]) 2 7 0 [] none
    { data := [2, 7, 2, 0, 9, 8], control := [] } [1, 1, 1, 1] 4 2
    (by decide) (by decide) rfl (by decide) (by decide) (by decide) (by decide) (by decide)
    (by decide)

/-- C9, as the code has it: with a caller-supplied reply buffer announced
with `n` bytes, the call returns only if the reply's service id equals the
request's, the payload length declared in the reply's header is at most `n`,
and the reply carries exactly the declared number of payload bytes or, when
`n` bytes are declared, more than `n` (the receive cuts the excess off). A
reply with a different service id, with a declared payload length above `n`,
with fewer payload bytes than declared, or with more payload bytes than
declared while the declared length is not `n`, is a fatal fault. -/
theorem hal_ipc_cmd_accepts_only_fitting_reply (K : HalConsts) (env : CmdEnv)
    (service_id opcode : Byte) (len : Word) (param : List Byte) (fd : Option Int)
    (reply : Reply) (buf0 : List Byte) (n : Nat)
    (hrecv : env.recvmsg = some reply) :
    (∀ r, (hal_ipc_cmd K env service_id opcode len param (some n) (some buf0) fd).outcome = .ret r
        → hdr_service_id reply.data = service_id.val ∧ hdr_len reply.data ≤ n
          ∧ (reply.data.length = 4 + hdr_len reply.data
            ∨ (hdr_len reply.data = n ∧ 4 + n < reply.data.length)))
    ∧ (hdr_service_id reply.data ≠ service_id.val ∨ n < hdr_len reply.data
        ∨ reply.data.length < 4 + hdr_len reply.data
        ∨ (4 + hdr_len reply.data < reply.data.length ∧ hdr_len reply.data ≠ n)
        → ∃ f, (hal_ipc_cmd K env service_id opcode len param (some n) (some buf0) fd).outcome
            = .exit f) := by
  have key : ∀ r,
      (hal_ipc_cmd K env service_id opcode len param (some n) (some buf0) fd).outcome = .ret r
      → hdr_service_id reply.data = service_id.val ∧ hdr_len reply.data ≤ n
        ∧ (reply.data.length = 4 + hdr_len reply.data
          ∨ (hdr_len reply.data = n ∧ 4 + n < reply.data.length)) := by
    intro r hout
    have hinv := hal_ipc_cmd_ret_inv K env service_id opcode len param (some n) (some buf0) fd
      reply r hrecv hout
    have hcap : rsp_capacity (some n) (some buf0) = n := rfl
    have hfit := (recv_ret_eq_iff reply.data (rsp_capacity (some n) (some buf0))
      (hdr_len reply.data)).mp hinv.2.1
    rw [hcap] at hfit
    refine ⟨hinv.1, by omega, ?_⟩
    rcases hfit with h | h
    · exact Or.inl h.1
    · exact Or.inr h
  refine ⟨key, ?_⟩
  intro hbad
  cases hout : (hal_ipc_cmd K env service_id opcode len param (some n) (some buf0) fd).outcome with
  | exit f => exact ⟨f, rfl⟩
  | ret r =>
    have h := key r hout
    rcases hbad with hb | hb | hb | hb
    · exact absurd h.1 hb
    · omega
    · omega
    · omega

/-- C9 as the code has it, at concrete replies against an announced capacity
of 8: a reply with a 3-byte payload returns; a reply that declares and carries
9 bytes is fatal; a reply that declares 3 bytes and carries 4 is fatal. -/
theorem hal_ipc_cmd_accepts_only_fitting_reply_witness :
    (∀ r, (hal_ipc_cmd bluez (answering [2, 7, 3, 0, 9, 8, 7]) 2 7 0 [] (some 8)
          (some [0, 0, 0, 0, 0, 0, 0, 0]) none).outcome = .ret r
        → hdr_service_id [2, 7, 3, 0, 9, 8, 7] = (2 : Byte).val
          ∧ hdr_len [2, 7, 3, 0, 9, 8, 7] ≤ 8
          ∧ (([2, 7, 3, 0, 9, 8, 7] : List Byte).length = 4 + hdr_len [2, 7, 3, 0, 9, 8, 7]
            ∨ (hdr_len [2, 7, 3, 0, 9, 8, 7] = 8
              ∧ 4 + 8 < ([2, 7, 3, 0, 9, 8, 7] : List Byte).length)))
    ∧ (∃ f, (hal_ipc_cmd bluez (answering [2, 7, 9, 0, 1, 2, 3, 4, 5, 6, 7, 8, 9]) 2 7 0 []
          (some 8) (some [0, 0, 0, 0, 0, 0, 0, 0]) none).outcome = .exit f)
    ∧ (∃ f, (hal_ipc_cmd bluez (answering [2, 7, 3, 0, 9, 8, 7, 6]) 2 7 0 []
          (some 8) (some [0, 0, 0, 0, 0, 0, 0, 0]) none).outcome = .exit f) :=
  ⟨(hal_ipc_cmd_accepts_only_fitting_reply bluez (answering [2, 7, 3, 0, 9, 8, 7]) 2 7 0 [] none
      { data := [2, 7, 3, 0, 9, 8, 7], control := [] } [0, 0, 0, 0, 0, 0, 0, 0] 8 rfl).1,
    (hal_ipc_cmd_accepts_only_fitting_reply bluez
      (answering [2, 7, 9, 0, 1, 2, 3, 4, 5, 6, 7, 8, 9]) 2 7 0 [] none
      { data := [2, 7, 9, 0, 1, 2, 3, 4, 5, 6, 7, 8, 9], control := [] }
      [0, 0, 0, 0, 0, 0, 0, 0] 8 rfl).2 (Or.inr (Or.inl (by decide))),
    (hal_ipc_cmd_accepts_only_fitting_reply bluez
      (answering [2, 7, 3, 0, 9, 8, 7, 6]) 2 7 0 [] none
      { data := [2, 7, 3, 0, 9, 8, 7, 6], control := [] }
      [0, 0, 0, 0, 0, 0, 0, 0] 8 rfl).2 (Or.inr (Or.inr (Or.inr ⟨by decide, by decide⟩)))⟩

/-- C9 as stated fails: the caller announces 8 bytes, the reply carries the
request's service id and opcode with a 3-byte payload, and the call returns
success with `*rsp_len = 3` instead of ending in a fatal fault. -/
theorem hal_ipc_cmd_accepts_shorter_reply :
    (hal_ipc_cmd bluez (answering [2, 7, 3, 0, 9, 8, 7]) 2 7 0 [] (some 8)
        (some [0, 0, 0, 0, 0, 0, 0, 0]) none).outcome =
      .ret { status := 0, rsp_len := some 3, rsp := some [9, 8, 7, 0, 0, 0, 0, 0], fd := none }
    ∧ hdr_len [2, 7, 3, 0, 9, 8, 7] ≠ 8 := by
  decide

/-- C10, as the code has it: for every request made without a reply buffer
or with a reply buffer of capacity at least one byte, a well-formed status
reply (request's service id, status opcode, one-byte payload whose code `c` is
not success) makes the call return `c`. -/
theorem hal_ipc_cmd_status_returned (K : HalConsts) (env : CmdEnv)
    (service_id opcode : Byte) (len : Word) (param : List Byte) (rsp_len : Option Nat)
    (rsp : Option (List Byte)) (fd : Option Int) (reply : Reply) (c : Byte)
    (hroom : rsp = none ∨ rsp_len = none ∨ ∃ n, rsp_len = some n ∧ 1 ≤ n)
    (hsk : 0 ≤ env.cmd_sk) (hsend : 0 < env.sendmsg_ret) (hrecv : env.recvmsg = some reply)
    (hsize : reply.data.length = 5)
    (hsid : hdr_service_id reply.data = service_id.val)
    (hop : hdr_opcode reply.data = K.HAL_OP_STATUS)
    (hlen : hdr_len reply.data = 1)
    (hc : byteAt reply.data 4 = c.val)
    (hcode : c.val ≠ K.HAL_STATUS_SUCCESS) :
    ∃ r, (hal_ipc_cmd K env service_id opcode len param rsp_len rsp fd).outcome = .ret r
      ∧ r.status = (c.val : Int) := by
  have hcap : 1 ≤ rsp_capacity rsp_len rsp := by
    unfold rsp_capacity own_status STATUS_SIZE
    rcases hroom with h | h | ⟨n, h, hn⟩
    · simp [h]
    · simp [h]
    · cases rsp with
      | none => simp
      | some b => simp [h, hn]
  rw [hal_ipc_cmd_status_reply K env service_id opcode len param rsp_len rsp fd reply hsk hsend
    hrecv hcap hsize hsid hop hlen (by rw [hc]; exact hcode)]
  exact ⟨_, rfl, by simp [hc]⟩

/-- C10 as the code has it, at a concrete exchange: reply buffer of capacity
one, status reply carrying `not_ready` (2). -/
theorem hal_ipc_cmd_status_returned_witness :
    ∃ r, (hal_ipc_cmd bluez (answering [2, 0, 1, 0, 2]) 2 7 0 [] (some 1) (some [0])
        none).outcome = .ret r ∧ r.status = ((2 : Byte).val : Int) :=
  hal_ipc_cmd_status_returned bluez (answering [2, 0, 1, 0, 2]) 2 7 0 [] (some 1) (some [0]) none
    { data := [2, 0, 1, 0, 2], control := [] } 2
    (Or.inr (Or.inr ⟨1, rfl, by decide⟩)) (by decide) (by decide) rfl (by decide) (by decide)
    (by decide) (by decide) (by decide) (by decide)

/-- C10 as stated fails for capacity zero: the caller passes a reply buffer
announced with 0 bytes, the peer sends a well-formed status reply carrying
`not_ready` (2), and the call ends in the malformed-response fatal fault
instead of returning the code. -/
theorem hal_ipc_cmd_status_zero_capacity_fatal :
    hdr_service_id [2, 0, 1, 0, 2] = (2 : Byte).val
    ∧ hdr_opcode [2, 0, 1, 0, 2] = bluez.HAL_OP_STATUS
    ∧ hdr_len [2, 0, 1, 0, 2] = 1
    ∧ ([2, 0, 1, 0, 2] : List Byte).length = 5
    ∧ byteAt [2, 0, 1, 0, 2] 4 ≠ bluez.HAL_STATUS_SUCCESS
    ∧ (hal_ipc_cmd bluez (answering [2, 0, 1, 0, 2]) 2 7 0 [] (some 0) (some []) none).outcome
        = .exit .response_malformed := by
  decide




/-! ## Wire format and registry: theorems -/

/-- C11: on a connected socket the call hands exactly one frame to `sendmsg`;
for a parameter block of `len` bytes it is `4 + len` bytes long, byte 0 is the
service id, byte 1 the opcode, bytes 2-3 are `len` in little-endian order, and
the parameter bytes follow unchanged and in order. -/
theorem hal_ipc_cmd_sends_request_frame (K : HalConsts) (env : CmdEnv)
    (service_id opcode : Byte) (len : Word) (param : List Byte) (rsp_len : Option Nat)
    (rsp : Option (List Byte)) (fd : Option Int)
    (hsk : 0 ≤ env.cmd_sk) (hparam : param.length = len.val) :
    ∃ frame, (hal_ipc_cmd K env service_id opcode len param rsp_len rsp fd).sent = [frame]
      ∧ frame.length = 4 + len.val
      ∧ byteAt frame 0 = service_id.val
      ∧ byteAt frame 1 = opcode.val
      ∧ byteAt frame 2 = len.val % 256
      ∧ byteAt frame 3 = len.val / 256
      ∧ frame.drop 4 = param := by
  refine ⟨request_frame service_id opcode len param, ?_, ?_, ?_, ?_, ?_, ?_, ?_⟩
  · have h1 : ¬ env.cmd_sk < 0 := by omega
    unfold hal_ipc_cmd
    rw [if_neg h1]
    dsimp only
    by_cases h2 : env.sendmsg_ret < 0
    · rw [if_pos h2]
    rw [if_neg h2]
    by_cases h3 : env.sendmsg_ret = 0
    · rw [if_pos h3]
    rw [if_neg h3]
    cases env.recvmsg with
    | none => rfl
    | some reply =>
      dsimp only
      split_ifs <;> rfl
  · simp [request_frame, cmd_hdr, hparam]
    omega
  · simp [request_frame, cmd_hdr, byteAt]
  · simp [request_frame, cmd_hdr, byteAt]
  · simp [request_frame, cmd_hdr, byteAt]
  · have hlt := len.isLt
    simp [request_frame, cmd_hdr, byteAt]
    omega
  · have htake : param.take len.val = param := List.take_of_length_le (by omega)
    simp [request_frame, cmd_hdr, htake]

/-- C11 at a concrete request: service 1, opcode 2, three parameter bytes. -/
theorem hal_ipc_cmd_sends_request_frame_witness :
    ∃ frame, (hal_ipc_cmd bluez (answering [1, 0, 1, 0, 2]) 1 2 3 [7, 8, 9] none none none).sent
        = [frame]
      ∧ frame.length = 4 + (3 : Word).val
      ∧ byteAt frame 0 = (1 : Byte).val
      ∧ byteAt frame 1 = (2 : Byte).val
      ∧ byteAt frame 2 = (3 : Word).val % 256
      ∧ byteAt frame 3 = (3 : Word).val / 256
      ∧ frame.drop 4 = [7, 8, 9] :=
  hal_ipc_cmd_sends_request_frame bluez (answering [1, 0, 1, 0, 2]) 1 2 3 [7, 8, 9] none none none
    (by decide) (by decide)

/-- C12: decoding the header bytes the transport writes gives back the three
field values, for the bare header, for a whole request frame, and for the
header part a receive stores into `cmd`. -/
theorem hdr_decode_encode (service_id opcode : Byte) (len : Word) (param : List Byte) :
    (hdr_service_id (cmd_hdr service_id opcode len) = service_id.val
      ∧ hdr_opcode (cmd_hdr service_id opcode len) = opcode.val
      ∧ hdr_len (cmd_hdr service_id opcode len) = len.val)
    ∧ (hdr_service_id (request_frame service_id opcode len param) = service_id.val
      ∧ hdr_opcode (request_frame service_id opcode len param) = opcode.val
      ∧ hdr_len (request_frame service_id opcode len param) = len.val)
    ∧ (hdr_service_id (recv_cmd (request_frame service_id opcode len param)) = service_id.val
      ∧ hdr_opcode (recv_cmd (request_frame service_id opcode len param)) = opcode.val
      ∧ hdr_len (recv_cmd (request_frame service_id opcode len param)) = len.val) := by
  have hlt := len.isLt
  have hbare : hdr_service_id (cmd_hdr service_id opcode len) = service_id.val
      ∧ hdr_opcode (cmd_hdr service_id opcode len) = opcode.val
      ∧ hdr_len (cmd_hdr service_id opcode len) = len.val := by
    refine ⟨by simp [hdr_service_id, cmd_hdr, byteAt], by simp [hdr_opcode, cmd_hdr, byteAt], ?_⟩
    simp [hdr_len, cmd_hdr, byteAt]
    omega
  have hframe : hdr_service_id (request_frame service_id opcode len param) = service_id.val
      ∧ hdr_opcode (request_frame service_id opcode len param) = opcode.val
      ∧ hdr_len (request_frame service_id opcode len param) = len.val := by
    refine ⟨by simp [hdr_service_id, request_frame, cmd_hdr, byteAt],
      by simp [hdr_opcode, request_frame, cmd_hdr, byteAt], ?_⟩
    simp [hdr_len, request_frame, cmd_hdr, byteAt]
    omega
  refine ⟨hbare, hframe, ?_⟩
  rw [recv_cmd_service_id, recv_cmd_opcode, recv_cmd_len]
  exact hframe

/-- C13: for a service id within the table, `hal_ipc_register(s, h, n)` leaves
exactly `(h, n)` in slot `s` whatever was there before, `hal_ipc_unregister(s)`
leaves the slot empty, so that every frame addressed to `s` then fails
dispatch, and neither changes any other slot. -/
theorem hal_ipc_register_unregister_slot {H : Type} (K : HalConsts) (services : Services H)
    (s : Nat) (handlers : List (hal_ipc_handler H)) (n : Nat)
    (_hs : s ≤ K.HAL_SERVICE_ID_MAX) (hn : n < 256) :
    (hal_ipc_register services s handlers n) s = { handler := some handlers, size := n }
    ∧ (∀ t, t ≠ s → (hal_ipc_register services s handlers n) t = services t)
    ∧ (hal_ipc_unregister services s) s = { handler := none, size := 0 }
    ∧ (∀ t, t ≠ s → (hal_ipc_unregister services s) t = services t)
    ∧ (∀ buf len, hdr_service_id buf = s
        → (handle_msg K (hal_ipc_unregister services s) buf len).fatal) := by
  refine ⟨?_, ?_, ?_, ?_, ?_⟩
  · simp [hal_ipc_register, Nat.mod_eq_of_lt hn]
  · intro t ht
    simp [hal_ipc_register, ht]
  · simp [hal_ipc_unregister]
  · intro t ht
    simp [hal_ipc_unregister, ht]
  · intro buf len hbuf
    have hnone : ((hal_ipc_unregister services s) (hdr_service_id buf)).handler = none := by
      simp [hal_ipc_unregister, hbuf]
    unfold handle_msg
    split
    · exact Run.abort_fatal _
    split
    · exact Run.abort_fatal _
    split
    · exact Run.abort_fatal _
    simp only [hnone]
    exact Run.abort_fatal _

/-- C13 at a concrete table: service 1 of `svc1` is registered anew and
unregistered. -/
theorem hal_ipc_register_unregister_slot_witness :
    (hal_ipc_register svc1 1 [desc1, desc1] 2) 1 = { handler := some [desc1, desc1], size := 2 }
    ∧ (∀ t, t ≠ 1 → (hal_ipc_register svc1 1 [desc1, desc1] 2) t = svc1 t)
    ∧ (hal_ipc_unregister svc1 1) 1 = { handler := none, size := 0 }
    ∧ (∀ t, t ≠ 1 → (hal_ipc_unregister svc1 1) t = svc1 t)
    ∧ (∀ buf len, hdr_service_id buf = 1
        → (handle_msg bluez (hal_ipc_unregister svc1 1) buf len).fatal) :=
  hal_ipc_register_unregister_slot bluez svc1 1 [desc1, desc1] 2 (by decide) (by decide)

/-! ## Session life cycle: helper lemmas -/

theorem notification_loop_cons_dispatched {H : Type} (K : HalConsts) (services : Services H)
    (cb : Invocation H → Status) (ev : NotifEvent) (rest : List NotifEvent)
    (h : dispatched K services cb ev) :
    notification_loop K services cb (ev :: rest) =
      ((handle_msg K services ev.buf ev.ret).calls ++ (notification_loop K services cb rest).1,
        (notification_loop K services cb rest).2) := by
  obtain ⟨hpos, hst, hcb⟩ := h
  have h1 : ¬ ev.ret < 0 := by omega
  have h2 : ¬ ev.ret = 0 := by omega
  rw [notification_loop, if_neg h1, if_neg h2]
  simp only [hst, hcb]

theorem notification_loop_append {H : Type} (K : HalConsts) (services : Services H)
    (cb : Invocation H → Status) (pre rest : List NotifEvent)
    (h : ∀ e ∈ pre, dispatched K services cb e) :
    (notification_loop K services cb (pre ++ rest)).2 = (notification_loop K services cb rest).2 := by
  induction pre with
  | nil => rfl
  | cons e pre ih =>
    rw [List.cons_append, notification_loop_cons_dispatched K services cb e (pre ++ rest)
      (h e (List.mem_cons_self _ _))]
    exact ih (fun e' he' => h e' (List.mem_cons_of_mem _ he'))

theorem notification_loop_stopped {H : Type} (K : HalConsts) (services : Services H)
    (cb : Invocation H → Status) (events : List NotifEvent)
    (h : (notification_loop K services cb events).2 = .stopped) :
    ∃ pre ev rest, events = pre ++ ev :: rest ∧ (∀ e ∈ pre, dispatched K services cb e)
      ∧ ev.ret = 0 ∧ ev.cmd_sk = -1 := by
  induction events with
  | nil => simp [notification_loop] at h
  | cons ev rest ih =>
    rw [notification_loop] at h
    by_cases h1 : ev.ret < 0
    · rw [if_pos h1] at h; cases h
    rw [if_neg h1] at h
    by_cases h2 : ev.ret = 0
    · rw [if_pos h2] at h
      by_cases h3 : ev.cmd_sk = -1
      · exact ⟨[], ev, rest, rfl, fun e he => absurd he (List.not_mem_nil e), h2, h3⟩
      · rw [if_neg h3] at h; cases h
    rw [if_neg h2] at h
    cases hst : (handle_msg K services ev.buf ev.ret).status with
    | exited f => simp only [hst] at h; cases h
    | undefined => simp only [hst] at h; cases h
    | returned =>
      cases hcb : calls_end cb (handle_msg K services ev.buf ev.ret).calls with
      | exited f => simp only [hst, hcb] at h; cases h
      | undefined => simp only [hst, hcb] at h; cases h
      | returned =>
        simp only [hst, hcb] at h
        obtain ⟨pre, ev', rest', heq, hpre, hret, hsk⟩ := ih h
        refine ⟨ev :: pre, ev', rest', by rw [heq]; rfl, ?_, hret, hsk⟩
        intro e he
        rcases List.mem_cons.mp he with he | he
        · rw [he]; exact ⟨by omega, hst, hcb⟩
        · exact hpre e he

theorem notification_handler_ending {H : Type} (K : HalConsts) (services : Services H)
    (cb : Invocation H → Status) (notif_sk : Int) (events : List NotifEvent) :
    (notification_handler K services cb notif_sk events).ending
      = (notification_loop K services cb events).2 := by
  unfold notification_handler
  by_cases h : (notification_loop K services cb events).2 = .stopped
  · simp only [if_pos h]; exact h.symm
  · simp only [if_neg h]

/-! ## Session life cycle: theorems -/

/-- C14: the notification thread ends in `Stopped` exactly when, after
receives that were all dispatched, a receive returns zero bytes while
`cmd_sk` is `-1`; it then has closed the notification socket, reset
`notif_sk` to `-1` and disassociated the thread. A zero-byte receive while
`cmd_sk` is not `-1`, and any negative receive result, end in the fatal exit
instead. -/
theorem notification_handler_stopped_iff {H : Type} (K : HalConsts) (services : Services H)
    (cb : Invocation H → Status) (notif_sk : Int) (events : List NotifEvent) :
    ((notification_handler K services cb notif_sk events).ending = .stopped
      ↔ ∃ pre ev rest, events = pre ++ ev :: rest ∧ (∀ e ∈ pre, dispatched K services cb e)
          ∧ ev.ret = 0 ∧ ev.cmd_sk = -1)
    ∧ ((notification_handler K services cb notif_sk events).ending = .stopped
        → (notification_handler K services cb notif_sk events).notif_sk = -1
          ∧ (notification_handler K services cb notif_sk events).effects
              = [.thread_associate, .close notif_sk, .store_notif_sk (-1), .thread_disassociate])
    ∧ (∀ pre ev rest, events = pre ++ ev :: rest → (∀ e ∈ pre, dispatched K services cb e)
        → (ev.ret = 0 → ev.cmd_sk ≠ -1
            → (notification_handler K services cb notif_sk events).ending
                = .aborted .notification_socket_closed)
          ∧ (ev.ret < 0
            → (notification_handler K services cb notif_sk events).ending
                = .aborted .receiving_notifications_failed)) := by
  refine ⟨⟨?_, ?_⟩, ?_, ?_⟩
  · intro h
    rw [notification_handler_ending] at h
    exact notification_loop_stopped K services cb events h
  · rintro ⟨pre, ev, rest, heq, hpre, hret, hsk⟩
    rw [notification_handler_ending, heq, notification_loop_append K services cb pre _ hpre,
      notification_loop]
    have h1 : ¬ ev.ret < 0 := by omega
    rw [if_neg h1, if_pos hret, if_pos hsk]
  · intro h
    rw [notification_handler_ending] at h
    unfold notification_handler
    simp only [if_pos h]
    exact ⟨trivial, trivial⟩
  · intro pre ev rest heq hpre
    rw [notification_handler_ending, heq, notification_loop_append K services cb pre _ hpre,
      notification_loop]
    constructor
    · intro hret hsk
      have h1 : ¬ ev.ret < 0 := by omega
      rw [if_neg h1, if_pos hret, if_neg hsk]
    · intro hret
      rw [if_pos hret]

/-- C14 at concrete receives: after the accepted frame `frame1`, a zero-byte
receive with `cmd_sk = -1` stops the thread, one with `cmd_sk = 5` and a
negative result abort it. -/
theorem notification_handler_stopped_iff_witness :
    (notification_handler bluez svc1 (fun _ => Status.returned) 6
        [{ ret := 8, buf := frame1, cmd_sk := 5 }, { ret := 0, buf := [], cmd_sk := -1 }]).ending
      = .stopped
    ∧ (notification_handler bluez svc1 (fun _ => Status.returned) 6
        [{ ret := 8, buf := frame1, cmd_sk := 5 }, { ret := 0, buf := [], cmd_sk := 5 }]).ending
      = .aborted .notification_socket_closed
    ∧ (notification_handler bluez svc1 (fun _ => Status.returned) 6
        [{ ret := 8, buf := frame1, cmd_sk := 5 }, { ret := -1, buf := [], cmd_sk := -1 }]).ending
      = .aborted .receiving_notifications_failed :=
  ⟨(notification_handler_stopped_iff bluez svc1 (fun _ => Status.returned) 6
      [{ ret := 8, buf := frame1, cmd_sk := 5 }, { ret := 0, buf := [], cmd_sk := -1 }]).1.2
      ⟨[{ ret := 8, buf := frame1, cmd_sk := 5 }], { ret := 0, buf := [], cmd_sk := -1 }, [], rfl,
        by
          intro e he
          rw [List.mem_singleton.mp he]
          exact ⟨by decide, by decide, by decide⟩,
        rfl, rfl⟩,
    ((notification_handler_stopped_iff bluez svc1 (fun _ => Status.returned) 6
      [{ ret := 8, buf := frame1, cmd_sk := 5 }, { ret := 0, buf := [], cmd_sk := 5 }]).2.2
      [{ ret := 8, buf := frame1, cmd_sk := 5 }] { ret := 0, buf := [], cmd_sk := 5 } [] rfl
      (by
        intro e he
        rw [List.mem_singleton.mp he]
        exact ⟨by decide, by decide, by decide⟩)).1 rfl (by decide),
    ((notification_handler_stopped_iff bluez svc1 (fun _ => Status.returned) 6
      [{ ret := 8, buf := frame1, cmd_sk := 5 }, { ret := -1, buf := [], cmd_sk := -1 }]).2.2
      [{ ret := 8, buf := frame1, cmd_sk := 5 }] { ret := -1, buf := [], cmd_sk := -1 } [] rfl
      (by
        intro e he
        rw [List.mem_singleton.mp he]
        exact ⟨by decide, by decide, by decide⟩)).2 (by decide)⟩

theorem accept_connection_failed (poll_ret accept_ret : Int)
    (h : poll_ret ≤ 0 ∨ accept_ret < 0) : accept_connection poll_ret accept_ret = -1 := by
  unfold accept_connection
  split_ifs <;> first | rfl | omega

theorem accept_connection_accepted (poll_ret accept_ret : Int)
    (hp : 0 < poll_ret) (ha : 0 ≤ accept_ret) :
    accept_connection poll_ret accept_ret = accept_ret := by
  unfold accept_connection
  split_ifs <;> first | rfl | omega

/-- C15: starting from the handles at `-1` (only `notif_sk` matters, `cmd_sk`
is overwritten), with the listening socket set up and the daemon started: if
the first accept fails or times out, the call
returns false having closed the listening socket; if the first succeeds and
the second fails or times out, it returns false having closed the listening
socket and the accepted command socket; in both cases `cmd_sk` and `notif_sk`
hold `-1` afterwards. -/
theorem hal_ipc_init_accept_failure (env : InitEnv) (s : IpcState)
    (hnotif : s.notif_sk = -1)
    (hsock : 0 ≤ env.socket) (hbind : 0 ≤ env.bind) (hlisten : 0 ≤ env.listen)
    (hprop : 0 ≤ env.property_set) :
    ((env.poll1 ≤ 0 ∨ env.accept1 < 0)
      → (hal_ipc_init env s).ret = false
        ∧ (hal_ipc_init env s).effects = [.close env.socket]
        ∧ (hal_ipc_init env s).state.cmd_sk = -1
        ∧ (hal_ipc_init env s).state.notif_sk = -1)
    ∧ (0 < env.poll1 → 0 ≤ env.accept1 → (env.poll2 ≤ 0 ∨ env.accept2 < 0)
      → (hal_ipc_init env s).ret = false
        ∧ (hal_ipc_init env s).effects = [.close env.socket, .close env.accept1]
        ∧ (hal_ipc_init env s).state.cmd_sk = -1
        ∧ (hal_ipc_init env s).state.notif_sk = -1) := by
  have h1 : ¬ env.socket < 0 := by omega
  have h2 : ¬ env.bind < 0 := by omega
  have h3 : ¬ env.listen < 0 := by omega
  have h4 : ¬ env.property_set < 0 := by omega
  constructor
  · intro hfail
    have ha := accept_connection_failed env.poll1 env.accept1 hfail
    unfold hal_ipc_init
    simp only [if_neg h1, if_neg h2, if_neg h3, if_neg h4, ha]
    exact ⟨rfl, rfl, rfl, hnotif⟩
  · intro hp ha hfail
    have ha1 := accept_connection_accepted env.poll1 env.accept1 hp ha
    have ha2 := accept_connection_failed env.poll2 env.accept2 hfail
    have h5 : ¬ env.accept1 < 0 := by omega
    unfold hal_ipc_init
    simp only [if_neg h1, if_neg h2, if_neg h3, if_neg h4, ha1, ha2, if_neg h5]
    exact ⟨rfl, rfl, rfl, rfl⟩

/-- C15 at the end-to-end scenario: only the first of the two connections
arrives within the timeout. -/
theorem hal_ipc_init_accept_failure_witness :
    (hal_ipc_init one_connection IpcState.initial).ret = false
    ∧ (hal_ipc_init one_connection IpcState.initial).effects = [.close 3, .close 4]
    ∧ (hal_ipc_init one_connection IpcState.initial).state.cmd_sk = -1
    ∧ (hal_ipc_init one_connection IpcState.initial).state.notif_sk = -1 :=
  (hal_ipc_init_accept_failure one_connection IpcState.initial rfl (by decide) (by decide)
    (by decide) (by decide)).2 (by decide) (by decide) (Or.inl (by decide))

/-- C16, the code at the failing input: both connections are accepted and
`pthread_create` returns the error number 11; the test `err < 0` does not
hold, so the call returns true, closes only the listening socket, and leaves
`cmd_sk` and `notif_sk` connected. -/
theorem hal_ipc_init_thread_failure_ignored :
    hal_ipc_init thread_failure IpcState.initial =
      { ret := true
        state := { cmd_sk := 4, notif_sk := 5, notif_th := 0 }
        effects := [.close 3, .pthread_create 11] } := by
  decide

theorem notification_handler_of_stopped {H : Type} (K : HalConsts) (services : Services H)
    (cb : Invocation H → Status) (notif_sk : Int) (events : List NotifEvent)
    (h : (notification_loop K services cb events).2 = .stopped) :
    notification_handler K services cb notif_sk events =
      { calls := (notification_loop K services cb events).1
        effects := [.thread_associate, .close notif_sk, .store_notif_sk (-1),
                    .thread_disassociate]
        notif_sk := -1
        ending := .stopped } := by
  unfold notification_handler
  simp only [if_pos h]

/-- C17: `hal_ipc_cleanup` closes the command socket and sets `cmd_sk` to
`-1`, then shuts down the read side of the notification socket, then joins the
notification thread and clears its handle, in this order. The thread, whose
earlier receives were all dispatched, sees `cmd_sk = -1` at the zero-length
read and leaves by the `Stopped` path (closing the notification socket and
resetting `notif_sk`), so that after the cleanup both handles hold `-1`. -/
theorem hal_ipc_cleanup_stops_listener {H : Type} (K : HalConsts) (services : Services H)
    (cb : Invocation H → Status) (s : IpcState) (received : List NotifEvent)
    (hrecv : ∀ e ∈ received, dispatched K services cb e) :
    (hal_ipc_cleanup K services cb s received).effects
        = [.close s.cmd_sk, .store_cmd_sk (-1), .shutdown_rd s.notif_sk,
           .pthread_join s.notif_th, .store_notif_th 0]
    ∧ (hal_ipc_cleanup K services cb s received).listener.ending = .stopped
    ∧ (hal_ipc_cleanup K services cb s received).listener.effects
        = [.thread_associate, .close s.notif_sk, .store_notif_sk (-1), .thread_disassociate]
    ∧ (hal_ipc_cleanup K services cb s received).returned = true
    ∧ (hal_ipc_cleanup K services cb s received).state
        = { cmd_sk := -1, notif_sk := -1, notif_th := 0 } := by
  have hloop : (notification_loop K services cb
      (received ++ [{ ret := 0, buf := [], cmd_sk := -1 }])).2 = .stopped := by
    rw [notification_loop_append K services cb received _ hrecv, notification_loop]
    rfl
  have hl := notification_handler_of_stopped K services cb s.notif_sk
    (received ++ [{ ret := 0, buf := [], cmd_sk := -1 }]) hloop
  unfold hal_ipc_cleanup
  simp only [hl, if_true]
  refine ⟨?_, ?_, ?_, ?_, ?_⟩ <;> trivial

/-- C17 at a concrete session: command socket 4, notification socket 5,
thread 9, one accepted frame still to be dispatched. -/
theorem hal_ipc_cleanup_stops_listener_witness :
    (hal_ipc_cleanup bluez svc1 (fun _ => Status.returned)
        { cmd_sk := 4, notif_sk := 5, notif_th := 9 }
        [{ ret := 8, buf := frame1, cmd_sk := 4 }]).effects
        = [.close 4, .store_cmd_sk (-1), .shutdown_rd 5, .pthread_join 9, .store_notif_th 0]
    ∧ (hal_ipc_cleanup bluez svc1 (fun _ => Status.returned)
        { cmd_sk := 4, notif_sk := 5, notif_th := 9 }
        [{ ret := 8, buf := frame1, cmd_sk := 4 }]).listener.ending = .stopped
    ∧ (hal_ipc_cleanup bluez svc1 (fun _ => Status.returned)
        { cmd_sk := 4, notif_sk := 5, notif_th := 9 }
        [{ ret := 8, buf := frame1, cmd_sk := 4 }]).listener.effects
        = [.thread_associate, .close 5, .store_notif_sk (-1), .thread_disassociate]
    ∧ (hal_ipc_cleanup bluez svc1 (fun _ => Status.returned)
        { cmd_sk := 4, notif_sk := 5, notif_th := 9 }
        [{ ret := 8, buf := frame1, cmd_sk := 4 }]).returned = true
    ∧ (hal_ipc_cleanup bluez svc1 (fun _ => Status.returned)
        { cmd_sk := 4, notif_sk := 5, notif_th := 9 }
        [{ ret := 8, buf := frame1, cmd_sk := 4 }]).state
        = { cmd_sk := -1, notif_sk := -1, notif_th := 0 } :=
  hal_ipc_cleanup_stops_listener bluez svc1 (fun _ => Status.returned)
    { cmd_sk := 4, notif_sk := 5, notif_th := 9 } [{ ret := 8, buf := frame1, cmd_sk := 4 }]
    (by
      intro e he
      rw [List.mem_singleton.mp he]
      exact ⟨by decide, by decide, by decide⟩)

/-! ## Ancillary descriptor: theorems -/

/-- The scan of the control messages yields the descriptor of the first
`SOL_SOCKET`/`SCM_RIGHTS` message, and `-1` if there is none. -/
theorem scm_rights_fd_eq_first (control : List Cmsg) :
    scm_rights_fd control = ((first_scm_rights control).map Cmsg.data).getD (-1) := by
  induction control with
  | nil => rfl
  | cons c cs ih =>
    unfold scm_rights_fd first_scm_rights
    by_cases h : c.cmsg_level = SOL_SOCKET ∧ c.cmsg_type = SCM_RIGHTS
    · rw [if_pos h, List.find?_cons_of_pos _ (by simpa using h)]
      rfl
    · rw [if_neg h, List.find?_cons_of_neg _ (by simpa using h), ih]
      rfl

/-- C20, the code at two failing inputs. The adapter properties event
`enum_frame` is accepted by the dispatcher with a 5-byte payload; the handler
then reads the value byte of the `HAL_PROP_ADAPTER_TYPE` property at payload
offset 5, past the payload, and returns. The event `two_props_frame` is
accepted as well; the handler reads the length field of a second property at
payload offsets 6 and 7, past the payload, before it exits. -/
theorem adapter_props_reads_past_payload :
    (handle_msg bluez (bt_services bluez_layout) enum_frame 9
        = { calls := [{ handler := .handle_adapter_props_changed, payload := [0, 1, 5, 0, 0],
                        len := 5 }],
            status := .returned }
      ∧ bt_handler_run bluez_layout 4 true
          { handler := .handle_adapter_props_changed, payload := [0, 1, 5, 0, 0], len := 5 }
        = { reads := [1, 3, 4, 2, 5, 0, 1], props := [{ type := 5, len := 4, val := [0] }],
            status := .returned }
      ∧ ¬ length_safe (bt_handler_run bluez_layout 4 true
          { handler := .handle_adapter_props_changed, payload := [0, 1, 5, 0, 0], len := 5 }) 5)
    ∧ (handle_msg bluez (bt_services bluez_layout) two_props_frame 9
        = { calls := [{ handler := .handle_adapter_props_changed, payload := [0, 2, 1, 0, 0],
                        len := 5 }],
            status := .returned }
      ∧ bt_handler_run bluez_layout 4 true
          { handler := .handle_adapter_props_changed, payload := [0, 2, 1, 0, 0], len := 5 }
        = { reads := [1, 3, 4, 2, 6, 7], props := [{ type := 1, len := 0, val := [] }],
            status := .exited .invalid_adapter_properties }
      ∧ ¬ length_safe (bt_handler_run bluez_layout 4 true
          { handler := .handle_adapter_props_changed, payload := [0, 2, 1, 0, 0], len := 5 }) 5) := by
  decide

/-! ## Property areas and table accesses: theorems -/

theorem records_fit_iff_sum (sizes : List Nat) (len : Nat) :
    records_fit sizes len ↔ sizes.sum = len := by
  induction sizes generalizing len with
  | nil =>
    unfold records_fit
    simp only [List.sum_nil]
    exact eq_comm
  | cons size rest ih =>
    unfold records_fit
    rw [ih, List.sum_cons]
    omega

/-- The loop shared by both decoders returns exactly when the records fit,
and ends in `exit` otherwise. -/
theorem props_to_hal_returned_iff (L : HalLayout) (enum_types : List Nat) (sizeof_enum : Nat)
    (bad left : Fault) (buf : List Byte) (n : Nat) :
    ∀ off len,
      ((props_to_hal L enum_types sizeof_enum bad left buf off n len).status = .returned
        ↔ records_fit (record_sizes L buf off n) len)
      ∧ (¬ records_fit (record_sizes L buf off n) len
        → ∃ f, (props_to_hal L enum_types sizeof_enum bad left buf off n len).status
            = .exited f) := by
  induction n with
  | zero =>
    intro off len
    unfold props_to_hal record_sizes records_fit
    by_cases h : len = 0
    · simp [h]
    · simp [h]
  | succ n ih =>
    intro off len
    unfold props_to_hal record_sizes records_fit
    by_cases hbig : L.sizeof_hal_property + read16 buf (off + L.hal_property_len) > len
    · have hno : ¬ (L.sizeof_hal_property + read16 buf (off + L.hal_property_len) ≤ len) := by
        omega
      simp [hbig, hno]
    · have hle : L.sizeof_hal_property + read16 buf (off + L.hal_property_len) ≤ len := by omega
      have ih' := ih (off + (L.sizeof_hal_property + read16 buf (off + L.hal_property_len)))
        (len - (L.sizeof_hal_property + read16 buf (off + L.hal_property_len)))
      simp only [if_neg hbig]
      by_cases hty : byteAt buf (off + L.hal_property_type) ∈ enum_types
      · simp only [if_pos hty]
        exact ⟨⟨fun h => ⟨hle, ih'.1.mp h⟩, fun h => ih'.1.mpr h.2⟩,
          fun h => ih'.2 (fun hr => h ⟨hle, hr⟩)⟩
      · simp only [if_neg hty]
        exact ⟨⟨fun h => ⟨hle, ih'.1.mp h⟩, fun h => ih'.1.mpr h.2⟩,
          fun h => ih'.2 (fun hr => h ⟨hle, hr⟩)⟩

/-- C22: `adapter_props_to_hal` and `device_props_to_hal` return for a
property area of `len` bytes declared to hold `num_props` records exactly when
the `num_props` consecutive records (header plus declared value length) each
fit in the bytes still remaining and together consume exactly `len` bytes;
otherwise they end in the fatal exit. With `num_props = 0` they return only
for an empty area. -/
theorem props_to_hal_accepts_iff_records_fit (L : HalLayout) (sizeof_enum : Nat)
    (buf : List Byte) (off num_props len : Nat) :
    ((adapter_props_to_hal L sizeof_enum buf off num_props len).status = .returned
      ↔ records_fit (record_sizes L buf off num_props) len)
    ∧ ((device_props_to_hal L sizeof_enum buf off num_props len).status = .returned
      ↔ records_fit (record_sizes L buf off num_props) len)
    ∧ (¬ records_fit (record_sizes L buf off num_props) len
      → (∃ f, (adapter_props_to_hal L sizeof_enum buf off num_props len).status = .exited f)
        ∧ (∃ f, (device_props_to_hal L sizeof_enum buf off num_props len).status = .exited f))
    ∧ (records_fit (record_sizes L buf off num_props) len
      ↔ (record_sizes L buf off num_props).sum = len)
    ∧ ((adapter_props_to_hal L sizeof_enum buf off 0 len).status = .returned ↔ len = 0)
    ∧ ((device_props_to_hal L sizeof_enum buf off 0 len).status = .returned ↔ len = 0) := by
  have ha := fun n l => props_to_hal_returned_iff L
    [L.HAL_PROP_ADAPTER_TYPE, L.HAL_PROP_ADAPTER_SCAN_MODE] sizeof_enum
    .invalid_adapter_properties .adapter_properties_bytes_left buf n off l
  have hd := fun n l => props_to_hal_returned_iff L [L.HAL_PROP_DEVICE_TYPE] sizeof_enum
    .invalid_device_properties .device_properties_bytes_left buf n off l
  refine ⟨(ha num_props len).1, (hd num_props len).1,
    fun h => ⟨(ha num_props len).2 h, (hd num_props len).2 h⟩,
    records_fit_iff_sum _ _, ?_, ?_⟩
  · have h0 := (ha 0 len).1
    unfold record_sizes records_fit at h0
    exact h0
  · have h0 := (hd 0 len).1
    unfold record_sizes records_fit at h0
    exact h0

/-- C22 at a concrete area of 7 bytes holding two records, with value lengths
0 and 1. -/
theorem props_to_hal_accepts_iff_records_fit_witness :
    (record_sizes bluez_layout [1, 0, 0, 9, 1, 0, 7] 0 2).sum = 7
    ∧ records_fit (record_sizes bluez_layout [1, 0, 0, 9, 1, 0, 7] 0 2) 7
    ∧ (adapter_props_to_hal bluez_layout 4 [1, 0, 0, 9, 1, 0, 7] 0 2 7).status = .returned
    ∧ (device_props_to_hal bluez_layout 4 [1, 0, 0, 9, 1, 0, 7] 0 2 7).status = .returned :=
  ⟨by decide,
    (props_to_hal_accepts_iff_records_fit bluez_layout 4 [1, 0, 0, 9, 1, 0, 7] 0 2 7).2.2.2.1.mpr
      (by decide),
    (props_to_hal_accepts_iff_records_fit bluez_layout 4 [1, 0, 0, 9, 1, 0, 7] 0 2 7).1.mpr
      ((props_to_hal_accepts_iff_records_fit bluez_layout 4 [1, 0, 0, 9, 1, 0, 7] 0 2
        7).2.2.2.1.mpr (by decide)),
    (props_to_hal_accepts_iff_records_fit bluez_layout 4 [1, 0, 0, 9, 1, 0, 7] 0 2 7).2.1.mpr
      ((props_to_hal_accepts_iff_records_fit bluez_layout 4 [1, 0, 0, 9, 1, 0, 7] 0 2
        7).2.2.2.1.mpr (by decide))⟩

/-- The traced dispatcher runs as the dispatcher does. -/
theorem handle_msg_traced_run {H : Type} (K : HalConsts) (services : Services H)
    (buf : List Byte) (len : Int) :
    (handle_msg_traced K services buf len).1 = handle_msg K services buf len := by
  unfold handle_msg_traced handle_msg
  by_cases h1 : len < (HDR_SIZE : Int)
  · rw [if_pos h1, if_pos h1]
  rw [if_neg h1, if_neg h1]
  by_cases h2 : len ≠ ((HDR_SIZE + hdr_len buf : Nat) : Int)
  · rw [if_pos h2, if_pos h2]
  rw [if_neg h2, if_neg h2]
  by_cases h3 : hdr_service_id buf > K.HAL_SERVICE_ID_MAX
  · rw [if_pos h3, if_pos h3]
  rw [if_neg h3, if_neg h3]
  cases hreg : (services (hdr_service_id buf)).handler with
  | none => rfl
  | some table =>
    dsimp only
    by_cases h4 : hdr_opcode buf < K.HAL_MINIMUM_EVENT
    · rw [if_pos h4, if_pos h4]
    rw [if_neg h4, if_neg h4]
    by_cases h5 : adjusted_opcode K buf ≥ (services (hdr_service_id buf)).size
    · rw [if_pos h5, if_pos h5]
    rw [if_neg h5, if_neg h5]
    cases hd : table[adjusted_opcode K buf]? with
    | none => rfl
    | some d =>
      dsimp only
      split_ifs <;> rfl

/-- C23: when every registered size equals the length of its handler array,
`handle_msg` reads the service table only at an index `<= HAL_SERVICE_ID_MAX`
and a handler table only at an index below its registered size (hence inside
the array, so that the run is never undefined), and it evaluates
`opcode - HAL_MINIMUM_EVENT` only on an opcode `>= HAL_MINIMUM_EVENT`, where
the 8-bit result is the plain difference. -/
theorem handle_msg_accesses_in_bounds {H : Type} (K : HalConsts) (services : Services H)
    (buf : List Byte) (len : Int) (hwf : registry_sized services) :
    (handle_msg_traced K services buf len).1 = handle_msg K services buf len
    ∧ (∀ a ∈ (handle_msg_traced K services buf len).2, access_ok K services buf a)
    ∧ (handle_msg K services buf len).status ≠ .undefined := by
  refine ⟨handle_msg_traced_run K services buf len, ?_, ?_⟩
  · unfold handle_msg_traced
    by_cases h1 : len < (HDR_SIZE : Int)
    · rw [if_pos h1]; intro a ha; cases ha
    rw [if_neg h1]
    by_cases h2 : len ≠ ((HDR_SIZE + hdr_len buf : Nat) : Int)
    · rw [if_pos h2]; intro a ha; cases ha
    rw [if_neg h2]
    by_cases h3 : hdr_service_id buf > K.HAL_SERVICE_ID_MAX
    · rw [if_pos h3]; intro a ha; cases ha
    rw [if_neg h3]
    have hsvc : access_ok K services buf (.service (hdr_service_id buf)) := by
      unfold access_ok; omega
    cases hreg : (services (hdr_service_id buf)).handler with
    | none =>
      intro a ha
      rw [List.mem_singleton.mp ha]
      exact hsvc
    | some table =>
      dsimp only
      by_cases h4 : hdr_opcode buf < K.HAL_MINIMUM_EVENT
      · rw [if_pos h4]
        intro a ha
        rw [List.mem_singleton.mp ha]
        exact hsvc
      rw [if_neg h4]
      have hmin : K.HAL_MINIMUM_EVENT ≤ hdr_opcode buf := by omega
      have hlt := hdr_opcode_lt buf
      have hsub : access_ok K services buf (.subtract (hdr_opcode buf)) := by
        unfold access_ok
        exact ⟨hmin, by omega, by omega, adjusted_opcode_eq K buf hmin⟩
      by_cases h5 : adjusted_opcode K buf ≥ (services (hdr_service_id buf)).size
      · rw [if_pos h5]
        intro a ha
        simp only [List.mem_cons, List.mem_singleton, List.not_mem_nil, or_false] at ha
        rcases ha with ha | ha | ha
        · rw [ha]; exact hsvc
        · rw [ha]; exact hsub
        · rw [ha]; exact hsvc
      rw [if_neg h5]
      have hhand : access_ok K services buf
          (.handler (hdr_service_id buf) (adjusted_opcode K buf)) := by
        unfold access_ok
        refine ⟨table, hreg, by omega, ?_⟩
        rw [← hwf (hdr_service_id buf) table hreg]
        omega
      have hall : ∀ a ∈ ([.service (hdr_service_id buf), .subtract (hdr_opcode buf),
          .service (hdr_service_id buf), .service (hdr_service_id buf),
          .handler (hdr_service_id buf) (adjusted_opcode K buf)] : List Access),
          access_ok K services buf a := by
        intro a ha
        simp only [List.mem_cons, List.mem_singleton, List.not_mem_nil, or_false] at ha
        rcases ha with ha | ha | ha | ha | ha
        · rw [ha]; exact hsvc
        · rw [ha]; exact hsub
        · rw [ha]; exact hsvc
        · rw [ha]; exact hsvc
        · rw [ha]; exact hhand
      cases hd : table[adjusted_opcode K buf]? with
      | none => exact hall
      | some d =>
        dsimp only
        split_ifs <;> exact hall
  · unfold handle_msg
    by_cases h1 : len < (HDR_SIZE : Int)
    · rw [if_pos h1]; simp [Run.abort]
    rw [if_neg h1]
    by_cases h2 : len ≠ ((HDR_SIZE + hdr_len buf : Nat) : Int)
    · rw [if_pos h2]; simp [Run.abort]
    rw [if_neg h2]
    by_cases h3 : hdr_service_id buf > K.HAL_SERVICE_ID_MAX
    · rw [if_pos h3]; simp [Run.abort]
    rw [if_neg h3]
    cases hreg : (services (hdr_service_id buf)).handler with
    | none => simp [Run.abort]
    | some table =>
      dsimp only
      by_cases h4 : hdr_opcode buf < K.HAL_MINIMUM_EVENT
      · rw [if_pos h4]; simp [Run.abort]
      rw [if_neg h4]
      by_cases h5 : adjusted_opcode K buf ≥ (services (hdr_service_id buf)).size
      · rw [if_pos h5]; simp [Run.abort]
      rw [if_neg h5]
      have hin : adjusted_opcode K buf < table.length := by
        rw [← hwf (hdr_service_id buf) table hreg]
        omega
      rw [List.getElem?_eq_getElem hin]
      dsimp only
      split_ifs <;> simp [Run.abort]

/-- The table `svc1` is sized: its only registration has one entry and size 1. -/
theorem svc1_sized : registry_sized svc1 := by
  intro s table h
  unfold svc1 hal_ipc_register services_init at h ⊢
  by_cases hs : s = 1
  · simp only [if_pos hs] at h ⊢
    injection h with h
    rw [← h]
    rfl
  · simp only [if_neg hs] at h
    cases h

/-- C23 at the accepted frame `frame1` on the table `svc1`. -/
theorem handle_msg_accesses_in_bounds_witness :
    registry_sized svc1
    ∧ (handle_msg_traced bluez svc1 frame1 8).2
        = [.service 1, .subtract 0x81, .service 1, .service 1, .handler 1 0]
    ∧ (handle_msg_traced bluez svc1 frame1 8).1 = handle_msg bluez svc1 frame1 8
    ∧ (∀ a ∈ (handle_msg_traced bluez svc1 frame1 8).2, access_ok bluez svc1 frame1 a)
    ∧ (handle_msg bluez svc1 frame1 8).status ≠ .undefined :=
  ⟨svc1_sized, by decide, handle_msg_accesses_in_bounds bluez svc1 frame1 8 svc1_sized⟩

/-! ## Bluetooth interface operations: helper lemmas -/

theorem hal_ipc_init_connected (env : InitEnv) (s : IpcState)
    (h : (hal_ipc_init env s).ret = true) : 0 ≤ (hal_ipc_init env s).state.cmd_sk := by
  unfold hal_ipc_init at h ⊢
  by_cases h1 : env.socket < 0
  · rw [if_pos h1] at h; cases h
  rw [if_neg h1] at h ⊢
  by_cases h2 : env.bind < 0
  · rw [if_pos h2] at h; cases h
  rw [if_neg h2] at h ⊢
  by_cases h3 : env.listen < 0
  · rw [if_pos h3] at h; cases h
  rw [if_neg h3] at h ⊢
  by_cases h4 : env.property_set < 0
  · rw [if_pos h4] at h; cases h
  rw [if_neg h4] at h ⊢
  dsimp only at h ⊢
  by_cases h5 : accept_connection env.poll1 env.accept1 < 0
  · rw [if_pos h5] at h; cases h
  rw [if_neg h5] at h ⊢
  by_cases h6 : accept_connection env.poll2 env.accept2 < 0
  · rw [if_pos h6] at h; cases h
  rw [if_neg h6] at h ⊢
  by_cases h7 : env.pthread_create < 0
  · rw [if_pos h7] at h; cases h
  rw [if_neg h7]
  show 0 ≤ accept_connection env.poll1 env.accept1
  omega

/-- On a connected socket the call never ends in the invalid-socket exit. -/
theorem hal_ipc_cmd_connected (K : HalConsts) (env : CmdEnv) (service_id opcode : Byte)
    (len : Word) (param : List Byte) (rsp_len : Option Nat) (rsp : Option (List Byte))
    (fd : Option Int) (hsk : 0 ≤ env.cmd_sk) :
    (hal_ipc_cmd K env service_id opcode len param rsp_len rsp fd).outcome
      ≠ .exit .invalid_cmd_socket := by
  have h1 : ¬ env.cmd_sk < 0 := by omega
  unfold hal_ipc_cmd
  rw [if_neg h1]
  dsimp only
  by_cases h2 : env.sendmsg_ret < 0
  · rw [if_pos h2]; simp
  rw [if_neg h2]
  by_cases h3 : env.sendmsg_ret = 0
  · rw [if_pos h3]; simp
  rw [if_neg h3]
  cases env.recvmsg with
  | none => simp
  | some reply =>
    dsimp only
    split_ifs <;> simp

theorem bt_teardown_not_ready (K : HalConsts) (L : HalLayout) (sizeof_enum : Nat)
    (received : List NotifEvent) (cb_set : Bool) (cmds : List (Int × CmdRun))
    (ending : CallEnd) (s : BtState)
    (h : (bt_teardown K L sizeof_enum received cb_set cmds ending s).ending.returns = true) :
    interface_ready (bt_teardown K L sizeof_enum received cb_set cmds ending s).state = false := by
  unfold bt_teardown at h ⊢
  dsimp only at h ⊢
  by_cases hc : (hal_ipc_cleanup K s.services (bt_cb L sizeof_enum cb_set) s.ipc
      received).returned = true
  · rw [if_pos hc]
    rfl
  · rw [if_neg hc] at h
    dsimp only at h
    split at h <;> cases h

theorem bt_init_inv (K : HalConsts) (L : HalLayout) (B : BtConsts) (sizeof_enum : Nat)
    (io : InitIo) (callbacks : Option Nat) (s : BtState) (hinv : bt_inv s)
    (hret : (bt_init K L B sizeof_enum io callbacks s).ending.returns = true) :
    bt_inv (bt_init K L B sizeof_enum io callbacks s).state := by
  unfold bt_init at hret ⊢
  by_cases hr : interface_ready s = true
  · rw [if_pos hr]
    exact hinv
  rw [if_neg hr] at hret ⊢
  dsimp only at hret ⊢
  by_cases hi : (!(hal_ipc_init io.init s.ipc).ret) = true
  · rw [if_pos hi]
    intro h
    cases h
  rw [if_neg hi] at hret ⊢
  have hconn : 0 ≤ (hal_ipc_init io.init s.ipc).state.cmd_sk :=
    hal_ipc_init_connected io.init s.ipc (by simpa using hi)
  have hs1 : bt_inv { bt_hal_cbacks := callbacks
                      services := hal_ipc_register s.services L.HAL_SERVICE_ID_BLUETOOTH
                        (ev_handlers L) (ev_handlers L).length
                      ipc := (hal_ipc_init io.init s.ipc).state } := fun _ => hconn
  generalize hc1 : (hal_ipc_cmd K _ B.HAL_SERVICE_ID_CORE B.HAL_OP_REGISTER_MODULE _
    [toByte L.HAL_SERVICE_ID_BLUETOOTH] none none none).outcome = o1 at hret ⊢
  cases o1 with
  | exit f => exact hs1
  | ret r1 =>
    dsimp only at hret ⊢
    by_cases hst : r1.status ≠ K.BT_STATUS_SUCCESS
    · rw [if_pos hst] at hret ⊢
      intro h
      rw [bt_teardown_not_ready _ _ _ _ _ _ _ _ hret] at h
      cases h
    rw [if_neg hst] at hret ⊢
    generalize hc2 : (hal_ipc_cmd K _ B.HAL_SERVICE_ID_CORE B.HAL_OP_REGISTER_MODULE _
      [B.HAL_SERVICE_ID_SOCK] none none none).outcome = o2 at hret ⊢
    cases o2 with
    | exit f => exact hs1
    | ret r2 =>
      dsimp only at hret ⊢
      by_cases hst2 : r2.status ≠ K.BT_STATUS_SUCCESS
      · rw [if_pos hst2] at hret ⊢
        intro h
        rw [bt_teardown_not_ready _ _ _ _ _ _ _ _ hret] at h
        cases h
      rw [if_neg hst2]
      exact hs1

theorem bt_step_inv (K : HalConsts) (L : HalLayout) (B : BtConsts) (sizeof_enum : Nat)
    (op : BtOp) (s : BtState) (hinv : bt_inv s)
    (hret : (bt_step K L B sizeof_enum op s).ending.returns = true) :
    bt_inv (bt_step K L B sizeof_enum op s).state := by
  cases op with
  | init io callbacks => exact bt_init_inv K L B sizeof_enum io callbacks s hinv hret
  | cleanup received cb_set =>
    have hstep : bt_step K L B sizeof_enum (.cleanup received cb_set) s
        = bt_cleanup K L sizeof_enum received cb_set s := rfl
    rw [hstep] at hret ⊢
    unfold bt_cleanup at hret ⊢
    by_cases hr : (!interface_ready s) = true
    · rw [if_pos hr]; exact hinv
    · rw [if_neg hr] at hret ⊢
      intro h
      rw [bt_teardown_not_ready _ _ _ _ _ _ _ _ hret] at h
      cases h
  | command io opcode len param =>
    have hstep : bt_step K L B sizeof_enum (.command io opcode len param) s
        = bt_command K L B io opcode len param s := rfl
    rw [hstep]
    unfold bt_command
    by_cases hr : (!interface_ready s) = true
    · rw [if_pos hr]; exact hinv
    · rw [if_neg hr]; exact hinv
  | set_adapter_property io property =>
    have hstep : bt_step K L B sizeof_enum (.set_adapter_property io property) s
        = bt_set_adapter_property K L B sizeof_enum io property s := rfl
    rw [hstep]
    unfold bt_set_adapter_property
    by_cases hr : (!interface_ready s) = true
    · rw [if_pos hr]; exact hinv
    · rw [if_neg hr]
      split
      · exact hinv
      · exact hinv

theorem reachable_inv (K : HalConsts) (L : HalLayout) (B : BtConsts) (sizeof_enum : Nat)
    (s : BtState) (h : Reachable K L B sizeof_enum s) : bt_inv s := by
  induction h with
  | initial =>
    intro hr
    cases hr
  | step s op _ hret ih => exact bt_step_inv K L B sizeof_enum op s ih hret

/-! ## Bluetooth interface operations: theorems -/

/-- C21, the code at the failing input, next to the sibling path. When
`socket()` fails inside `hal_ipc_init`, `init` returns `BT_STATUS_FAIL` with
the callback pointer cleared, but the Bluetooth slot of the registry, empty
before the call, still holds `ev_handlers` with size 10. When instead the
first registration command is refused, the path through `fail:` returns the
status and leaves the slot empty and the transport variables as at the
start. -/
theorem bt_init_failure_keeps_registration :
    ((bt_init bluez bluez_layout bluez_bt 4 init_no_socket (some 1) bt_initial).ending
        = .ret bluez_bt.BT_STATUS_FAIL
      ∧ (bt_init bluez bluez_layout bluez_bt 4 init_no_socket (some 1) bt_initial).state.bt_hal_cbacks
        = none
      ∧ bt_initial.services bluez_layout.HAL_SERVICE_ID_BLUETOOTH = { handler := none, size := 0 }
      ∧ (bt_init bluez bluez_layout bluez_bt 4 init_no_socket (some 1) bt_initial).state.services
          bluez_layout.HAL_SERVICE_ID_BLUETOOTH
        = { handler := some (ev_handlers bluez_layout), size := 10 })
    ∧ ((bt_init bluez bluez_layout bluez_bt 4 init_register_refused (some 1) bt_initial).ending
        = .ret 1
      ∧ (bt_init bluez bluez_layout bluez_bt 4 init_register_refused (some 1)
          bt_initial).state.bt_hal_cbacks = none
      ∧ (bt_init bluez bluez_layout bluez_bt 4 init_register_refused (some 1)
          bt_initial).state.services bluez_layout.HAL_SERVICE_ID_BLUETOOTH
        = { handler := none, size := 0 }
      ∧ (bt_init bluez bluez_layout bluez_bt 4 init_register_refused (some 1) bt_initial).state.ipc
        = IpcState.initial) := by
  decide

/-- C24, as the code has it: in every state reachable from the initial state
through the interface operations, a ready interface has a connected command
socket (`cmd_sk >= 0`). Hence a command wrapper either returns
`BT_STATUS_NOT_READY` without calling `hal_ipc_cmd`, or (`set_adapter_property`
on a scan mode property that does not have the size of the enum) ends in the
fatal exit of its marshalling without calling `hal_ipc_cmd`, or calls
`hal_ipc_cmd` once on a connected socket; that call never ends in the
invalid-socket exit. -/
theorem bt_wrappers_on_connected_channel (K : HalConsts) (L : HalLayout) (B : BtConsts)
    (sizeof_enum : Nat) (s : BtState) (hs : Reachable K L B sizeof_enum s) :
    (interface_ready s = true → 0 ≤ s.ipc.cmd_sk)
    ∧ (∀ io opcode len param,
        ((bt_command K L B io opcode len param s).ending = .ret B.BT_STATUS_NOT_READY
          ∧ (bt_command K L B io opcode len param s).cmds = [])
        ∨ (∃ c, (bt_command K L B io opcode len param s).cmds = [(s.ipc.cmd_sk, c)]
            ∧ 0 ≤ s.ipc.cmd_sk ∧ c.outcome ≠ .exit .invalid_cmd_socket))
    ∧ (∀ io property,
        ((bt_set_adapter_property K L B sizeof_enum io property s).ending
            = .ret B.BT_STATUS_NOT_READY
          ∧ (bt_set_adapter_property K L B sizeof_enum io property s).cmds = [])
        ∨ ((bt_set_adapter_property K L B sizeof_enum io property s).ending
            = .exit .invalid_hal_property
          ∧ (bt_set_adapter_property K L B sizeof_enum io property s).cmds = []
          ∧ property.type = L.HAL_PROP_ADAPTER_SCAN_MODE ∧ property.len ≠ sizeof_enum)
        ∨ (∃ c, (bt_set_adapter_property K L B sizeof_enum io property s).cmds
              = [(s.ipc.cmd_sk, c)]
            ∧ 0 ≤ s.ipc.cmd_sk ∧ c.outcome ≠ .exit .invalid_cmd_socket)) := by
  have hinv := reachable_inv K L B sizeof_enum s hs
  refine ⟨hinv, ?_, ?_⟩
  · intro io opcode len param
    unfold bt_command
    by_cases hr : (!interface_ready s) = true
    · rw [if_pos hr]
      exact Or.inl ⟨rfl, rfl⟩
    · rw [if_neg hr]
      have hsk : 0 ≤ s.ipc.cmd_sk := hinv (by simpa using hr)
      exact Or.inr ⟨_, rfl, hsk, hal_ipc_cmd_connected K _ _ _ _ _ _ _ _ hsk⟩
  · intro io property
    unfold bt_set_adapter_property
    by_cases hr : (!interface_ready s) = true
    · rw [if_pos hr]
      exact Or.inl ⟨rfl, rfl⟩
    · rw [if_neg hr]
      have hsk : 0 ≤ s.ipc.cmd_sk := hinv (by simpa using hr)
      unfold adapter_prop_from_hal
      by_cases ht : property.type = L.HAL_PROP_ADAPTER_SCAN_MODE
      · rw [if_pos ht]
        by_cases hl : property.len ≠ sizeof_enum
        · rw [if_pos hl]
          exact Or.inr (Or.inl ⟨rfl, rfl, ht, hl⟩)
        · rw [if_neg hl]
          exact Or.inr (Or.inr ⟨_, rfl, hsk, hal_ipc_cmd_connected K _ _ _ _ _ _ _ _ hsk⟩)
      · rw [if_neg ht]
        exact Or.inr (Or.inr ⟨_, rfl, hsk, hal_ipc_cmd_connected K _ _ _ _ _ _ _ _ hsk⟩)

/-- C24 as the code has it, at the state after a successful `init`: the
interface is ready on socket 4 and a command wrapper calls `hal_ipc_cmd` on
it. -/
theorem bt_wrappers_on_connected_channel_witness :
    interface_ready ready_state = true
    ∧ 0 ≤ ready_state.ipc.cmd_sk
    ∧ (∃ c, (bt_command bluez bluez_layout bluez_bt (answering [1, 0, 1, 0, 2]) 1 0 []
            ready_state).cmds = [(ready_state.ipc.cmd_sk, c)]
        ∧ 0 ≤ ready_state.ipc.cmd_sk ∧ c.outcome ≠ .exit .invalid_cmd_socket) :=
  ⟨by decide,
    (bt_wrappers_on_connected_channel bluez bluez_layout bluez_bt 4 ready_state
      (Reachable.step bt_initial (.init init_ok (some 1)) Reachable.initial (by decide))).1
      (by decide),
    ((bt_wrappers_on_connected_channel bluez bluez_layout bluez_bt 4 ready_state
      (Reachable.step bt_initial (.init init_ok (some 1)) Reachable.initial (by decide))).2.1
      (answering [1, 0, 1, 0, 2]) 1 0 []).resolve_left (by decide)⟩

/-- C24 as stated fails for `set_adapter_property`: in the reachable state
after a successful `init` the interface is ready, and the wrapper called with
a scan mode property of length 0 neither returns `BT_STATUS_NOT_READY` nor
calls `hal_ipc_cmd`; it ends in the fatal exit of `enum_prop_from_hal`. -/
theorem set_adapter_property_exits_when_ready :
    Reachable bluez bluez_layout bluez_bt 4 ready_state
    ∧ interface_ready ready_state = true
    ∧ (bt_set_adapter_property bluez bluez_layout bluez_bt 4 (answering []) bad_scan_mode
        ready_state).ending = .exit .invalid_hal_property
    ∧ (bt_set_adapter_property bluez bluez_layout bluez_bt 4 (answering []) bad_scan_mode
        ready_state).cmds = [] :=
  ⟨Reachable.step bt_initial (.init init_ok (some 1)) Reachable.initial (by decide),
    by decide, by decide, by decide⟩

end HalIpc
